import Mathlib

/-!
Verification of the librarium library-management service core.

The Go domain packages (user, catalog, rental, auth, query, http) are
shallowly embedded below.  Machine integers are modelled as `Nat`/`Int`
(no overflow is reachable in the embedded code paths), Go `error` results
as `Except String`, Go nil-able pointers as `Option`, and Go `time.Time`
as an explicit civil-calendar value in UTC (`GoTime`).  Nondeterministic
inputs of the code (`uuid.New()`, `time.Now()`) are threaded as explicit
parameters.
-/

set_option autoImplicit false

namespace Librarium

/-! ## Time model

Models the subset of Go `time.Time` used by the domain code: civil calendar
fields plus the nanoseconds elapsed within the day, in a single fixed zone
(UTC; the embedded code never mixes zones).  `AddDate(0, n, 0)` on such a
value first normalises the month count and then rolls an out-of-range day
forward into the following month, exactly as the `time.Date` constructor
does.  Since every day value reachable here is at most 31 and every month
has at least 28 days, a single roll step reproduces the full Go
normalisation on the reachable inputs.
-/

/-- Civil UTC instant: calendar date plus nanoseconds within the day. -/
structure GoTime where
  year : Nat
  month : Nat
  day : Nat
  nsec : Nat
  deriving Repr, DecidableEq

/-- Leap-year rule of the proleptic Gregorian calendar, as in Go `isLeap`. -/
def isLeap (y : Nat) : Bool :=
  (y % 4 == 0 && y % 100 != 0) || (y % 400 == 0)

/-- Number of days of month `m` (1-12); months outside that range cannot be
produced by the embedded operations and are mapped to 0. -/
def monthLen (leap : Bool) (m : Nat) : Nat :=
  match m with
  | 1 => 31
  | 2 => if leap then 29 else 28
  | 3 => 31
  | 4 => 30
  | 5 => 31
  | 6 => 30
  | 7 => 31
  | 8 => 31
  | 9 => 30
  | 10 => 31
  | 11 => 30
  | 12 => 31
  | _ => 0

/-- Number of leap years strictly below `y`: multiples of 4 below `y`, minus
multiples of 100, plus multiples of 400. -/
def leapsBefore (y : Nat) : Nat :=
  (y + 3) / 4 - (y + 99) / 100 + (y + 399) / 400

/-- Days elapsed in a year before month `m` begins (`m` is 1-based). -/
def daysBeforeMonth (leap : Bool) : Nat → Nat
  | 0 => 0
  | m + 1 => daysBeforeMonth leap m + monthLen leap m

/-- Absolute day index of the date of `t` (days since the calendar origin). -/
def GoTime.absDays (t : GoTime) : Nat :=
  365 * t.year + leapsBefore t.year + daysBeforeMonth (isLeap t.year) t.month + (t.day - 1)

/-- Comparison of instants, as Go `Time.After`: later date, or same date and
later time of day. -/
def GoTime.after (a b : GoTime) : Bool :=
  b.absDays < a.absDays || (a.absDays == b.absDays && b.nsec < a.nsec)

/-- Single normalisation step for a day that overflows its month, as the Go
`time.Date` constructor performs (one step suffices for day values up to 59). -/
def normDay (y m d : Nat) : Nat × Nat × Nat :=
  let len := monthLen (isLeap y) m
  if len < d then
    if m = 12 then (y + 1, 1, d - len) else (y, m + 1, d - len)
  else (y, m, d)

/-- Go `t.AddDate(0, n, 0)`: add `n` calendar months, keeping the day and the
time of day, then normalise an overflowing day into the next month. -/
def GoTime.addMonths (t : GoTime) (n : Nat) : GoTime :=
  let tm := 12 * t.year + (t.month - 1) + n
  let res := normDay (tm / 12) (tm % 12 + 1) t.day
  { year := res.1, month := res.2.1, day := res.2.2, nsec := t.nsec }

/-- Normal form of `addMonths` for a day that never overflows its month
(day at most 28): the total-month counter `tm` split into year and month,
with day and time of day kept unchanged. -/
def monthsTime (d ns tm : Nat) : GoTime :=
  { year := tm / 12, month := tm % 12 + 1, day := d, nsec := ns }

/-- Well-formed civil instant: month and day within calendar range. -/
def GoTime.Valid (t : GoTime) : Prop :=
  1 ≤ t.month ∧ t.month ≤ 12 ∧ 1 ≤ t.day ∧ t.day ≤ monthLen (isLeap t.year) t.month

instance (t : GoTime) : Decidable t.Valid := by
  unfold GoTime.Valid
  infer_instance

end Librarium

namespace Librarium.user

/-! ## Package user (src/internal/user/user.go)

UUIDs are modelled as `Nat`; the builders receive the freshly generated
identifier as an explicit argument.
-/

/-- Go type `CustomerStatus string`; the underlying type is an arbitrary
string, with two named constants below. -/
abbrev CustomerStatus := String

/-- Constant `CustomerStatusActive`. -/
def CustomerStatusActive : CustomerStatus := "ACTIVE"

/-- Constant `CustomerStatusSuspended`. -/
def CustomerStatusSuspended : CustomerStatus := "SUSPENDED"

/-- Struct `Address`. -/
structure Address where
  street : String
  city : String
  state : String
  postalCode : String
  country : String
  deriving Repr, DecidableEq

/-- Struct `ContactDetails`; the `Address` field is a Go pointer, hence the
`Option`. -/
structure ContactDetails where
  email : String
  phoneNumber : String
  address : Option Address
  deriving Repr, DecidableEq

/-- Struct `Customer`; `ContactDetails` is a Go pointer field. -/
structure Customer where
  id : Nat
  name : String
  lastName : String
  status : CustomerStatus
  nationalID : String
  contactDetails : Option ContactDetails
  deriving Repr, DecidableEq

/-- Method `(*Address).validate`; the sequence of early returns is embedded
as an if-else chain with the same first-failure semantics. -/
def Address.validate (a : Address) : Except String Unit :=
  if a.street = "" then .error "address street field is mandatory"
  else if a.city = "" then .error "address city field is mandatory"
  else if a.state = "" then .error "address state field is mandatory"
  else if a.postalCode = "" then .error "address postal code field is mandatory"
  else if a.country = "" then .error "address country field is mandatory"
  else .ok ()

/-- Method `(*ContactDetails).validate`. -/
def ContactDetails.validate (cd : ContactDetails) : Except String Unit :=
  if cd.email = "" then .error "contact details email is mandatory"
  else if cd.phoneNumber = "" then .error "contact details phone number is mandatory"
  else
    match cd.address with
    | none => .error "contact details physical addres is mandatory"
    | some a => a.validate

/-- Function `BuildCustomer`.  The Go struct literal on the success path sets
`ID`, `Name`, `LastName`, `NationalID` and `ContactDetails` only, so `Status`
keeps the Go zero value of a string type, the empty string. -/
def BuildCustomer (newId : Nat) (name lastName nationalID : String)
    (contactDetails : Option ContactDetails) : Except String Customer :=
  if name = "" then .error "customer name field is mandatory"
  else if lastName = "" then .error "customer last name field is mandatory"
  else if nationalID = "" then .error "customer national ID field is mandatory"
  else
    match contactDetails with
    | none => .error "customer contact details is mandatory"
    | some cd =>
        match cd.validate with
        | .error e => .error e
        | .ok _ =>
            .ok { id := newId, name := name, lastName := lastName, status := ""
                  nationalID := nationalID, contactDetails := some cd }

/-- Method `(*Customer).Suspend`; returns the updated customer in place of the
Go in-place mutation. -/
def Customer.SuspendOp (c : Customer) : Except String Customer :=
  if c.status = CustomerStatusSuspended then .error "customer already suspended"
  else .ok { c with status := CustomerStatusSuspended }

/-- Method `(*Customer).Unsuspend`. -/
def Customer.UnsuspendOp (c : Customer) : Except String Customer :=
  if c.status ≠ CustomerStatusSuspended then
    .error "customer should be suspended to be unsuspend"
  else .ok { c with status := CustomerStatusActive }

/-- Struct `Librarian`. -/
structure Librarian where
  id : Nat
  name : String
  email : String
  password : String
  deriving Repr, DecidableEq

/-- Function `BuildLibrarian`. -/
def BuildLibrarian (newId : Nat) (name email password : String) :
    Except String Librarian :=
  if name = "" then .error "librarian name field is mandatory"
  else if email = "" then .error "librarian email field is mandatory"
  else if password = "" then .error "librarian password field is mandatory"
  else .ok { id := newId, name := name, email := email, password := password }

end Librarium.user

namespace Librarium.catalog

/-! ## Package catalog (src/internal/catalog/catalog.go)

The `Asset.Info` field and the `info any` argument of `BuildAsset` hold Go
interface values.  The embedded `GoAny` records the dynamic type of the
value, including whether it is a pointer (`*Book`) or a bare struct value
(`Book`): the Go type switch in `BuildAsset` distinguishes exactly that.
-/

/-- Struct `Book`; `int` fields are `Int`, `time.Time` fields are `GoTime`. -/
structure Book where
  title : String
  author : String
  publisher : String
  isbn : String
  pageCount : Int
  publishedAt : GoTime
  deriving Repr, DecidableEq

/-- Struct `Magazine`. -/
structure Magazine where
  title : String
  issue : String
  publisher : String
  publishedAt : GoTime
  pageCount : Int
  deriving Repr, DecidableEq

/-- Struct `NewsPaper`. -/
structure NewsPaper where
  title : String
  edition : String
  publisher : String
  publishedAt : GoTime
  pageCount : Int
  deriving Repr, DecidableEq

/-- Struct `DVD`. -/
structure DVD where
  title : String
  director : String
  producer : String
  durationMin : Int
  regionCode : String
  releasedAt : GoTime
  deriving Repr, DecidableEq

/-- Struct `CD`. -/
structure CD where
  title : String
  artist : String
  label : String
  trackCount : Int
  durationMin : Int
  releasedAt : GoTime
  deriving Repr, DecidableEq

/-- Struct `VideoGame`. -/
structure VideoGame where
  title : String
  developer : String
  platform : String
  genre : String
  releasedAt : GoTime
  ageRating : String
  deriving Repr, DecidableEq

/-- Dynamic value of Go interface type `any` as used for asset payloads.
The `ptr` flag records whether the dynamic type is the pointer type
(`*Book`) or the value type (`Book`). -/
inductive GoAny where
  | book (ptr : Bool) (b : Book)
  | magazine (ptr : Bool) (m : Magazine)
  | newsPaper (ptr : Bool) (n : NewsPaper)
  | dvd (ptr : Bool) (d : DVD)
  | cd (ptr : Bool) (c : CD)
  | videoGame (ptr : Bool) (v : VideoGame)
  | null
  deriving Repr, DecidableEq

/-- Go type `AssetCategory string` with the six constants used below. -/
abbrev AssetCategory := String

/-- Constant `AssetCategoryBook`. -/
def AssetCategoryBook : AssetCategory := "BOOK"

/-- Constant `AssetCategoryMagazine`. -/
def AssetCategoryMagazine : AssetCategory := "MAGAZINE"

/-- Constant `AssetCategoryNewsPaper`. -/
def AssetCategoryNewsPaper : AssetCategory := "NEWS_PAPER"

/-- Constant `AssetCategoryDVD`. -/
def AssetCategoryDVD : AssetCategory := "DVD"

/-- Constant `AssetCategoryCD`. -/
def AssetCategoryCD : AssetCategory := "CD"

/-- Constant `AssetCategoryVideoGame`. -/
def AssetCategoryVideoGame : AssetCategory := "VIDEO_GAME"

/-- Struct `Asset`. -/
structure Asset where
  id : Nat
  createdAt : GoTime
  updatedAt : GoTime
  category : AssetCategory
  info : GoAny
  deriving Repr, DecidableEq

/-- Function `BuildAsset`.  The Go type switch matches the pointer types
`*Book`, `*Magazine`, `*NewsPaper`, `*DVD`, `*CD`, `*VideoGame`; every other
dynamic type (including the bare struct values) falls to the default branch
and fails. -/
def BuildAsset (newId : Nat) (now : GoTime) (info : GoAny) :
    Except String Asset :=
  let a : Asset :=
    { id := newId, createdAt := now, updatedAt := now, category := "", info := .null }
  match info with
  | .book true b => .ok { a with category := AssetCategoryBook, info := .book true b }
  | .magazine true m => .ok { a with category := AssetCategoryMagazine, info := .magazine true m }
  | .newsPaper true n => .ok { a with category := AssetCategoryNewsPaper, info := .newsPaper true n }
  | .dvd true d => .ok { a with category := AssetCategoryDVD, info := .dvd true d }
  | .cd true c => .ok { a with category := AssetCategoryCD, info := .cd true c }
  | .videoGame true v => .ok { a with category := AssetCategoryVideoGame, info := .videoGame true v }
  | _ => .error "asset category not allowed"

end Librarium.catalog

namespace Librarium.rental

open Librarium.user Librarium.catalog

/-! ## Package rental (src/internal/rental/rental.go) -/

/-- Constant `maxNumberOfRentals`. -/
def maxNumberOfRentals : Nat := 5

/-- Constant `maxNumberOfExtendedMonths`. -/
def maxNumberOfExtendedMonths : Nat := 3

/-- Go type `RentalStatus string` with the three constants used below. -/
abbrev RentalStatus := String

/-- Constant `RentalStatusActive`. -/
def RentalStatusActive : RentalStatus := "ACTIVE"

/-- Constant `RentalStatusReturned`. -/
def RentalStatusReturned : RentalStatus := "RETURNED"

/-- Constant `RentalStatusOverdue`. -/
def RentalStatusOverdue : RentalStatus := "OVERDUE"

/-- Struct `Rental`; `ReturnedAt` is a Go pointer field, hence the `Option`. -/
structure Rental where
  id : Nat
  customerId : Nat
  assetId : Nat
  rentedAt : GoTime
  dueAt : GoTime
  returnedAt : Option GoTime
  status : RentalStatus
  deriving Repr, DecidableEq

/-- Function `Rent`.  The success branch reads the clock twice, first for
`RentedAt` and then, in a second strictly later call, as the base of
`DueAt` (Go evaluates the struct literal fields left to right); the two
readings are the explicit arguments `now` and `nowDue`, in evaluation
order.  `uuid.New()` is the explicit `newId`. -/
def Rent (customer : Customer) (asset : Asset) (activeRental : Option Rental)
    (customerRentals : List Rental) (newId : Nat) (now nowDue : GoTime) :
    Except String Rental :=
  if activeRental.isSome then
    .error "catalog asset already rented"
  else if maxNumberOfRentals ≤ customerRentals.length then
    .error "customer max number of rentals reached"
  else if customerRentals.any (fun r => r.status == RentalStatusOverdue) then
    .error "the customer has already a rental in overdue"
  else if customer.status = CustomerStatusSuspended then
    .error "cannot rent the asset, customer is suspended"
  else
    .ok { id := newId, customerId := customer.id, assetId := asset.id,
          rentedAt := now, dueAt := nowDue.addMonths 1, returnedAt := none,
          status := RentalStatusActive }

/-- Function `Return`; `time.Now().UTC()` is the explicit `now` argument and
the in-place mutation is returned as the updated rental. -/
def ReturnOp (r : Rental) (now : GoTime) : Except String Rental :=
  if r.status = RentalStatusReturned then
    .error "the rental is already returned"
  else
    .ok { r with status := RentalStatusReturned, returnedAt := some now }

/-- Function `Extend`; the in-place mutation is returned as the updated
rental. -/
def Extend (r : Rental) : Except String Rental :=
  if r.status = RentalStatusReturned then
    .error "the rental is already returned"
  else if (r.dueAt.addMonths 1).after (r.rentedAt.addMonths maxNumberOfExtendedMonths) then
    .error "extend max months reached"
  else
    .ok { r with status := RentalStatusActive, dueAt := r.dueAt.addMonths 1 }

end Librarium.rental

namespace Librarium.auth

open Librarium.user

/-! ## Package auth (src/internal/auth/auth.go)

Instants are modelled as Unix seconds (`Int`), bcrypt is modelled as a
symbolic undiscoverable tagging (hashing and comparison satisfy the
round-trip contract of `GenerateFromPassword` and
`CompareHashAndPassword`), and a signed JWT is modelled as a record that
carries its claims, its algorithm and the signing key it was sealed with
(symbolic perfect signature: verification succeeds exactly for the same
key).  The `AUTH_SIGNING_KEY` environment variable and `time.Now()` are
explicit arguments.
-/

/-- Constant `expiryDuration` (4 hours), in seconds. -/
def expiryDuration : Int := 4 * 3600

/-- Function `HashPassword`.  `bcrypt.GenerateFromPassword` fails for inputs
longer than 72 bytes and otherwise produces a verifiable hash; the source
version has no empty-password guard. -/
def HashPassword (password : String) : Except String String :=
  if 72 < password.length then
    .error "bcrypt: password length exceeds 72 bytes"
  else .ok ("bcrypt$" ++ password)

/-- Function `CheckPassword` (`bcrypt.CompareHashAndPassword`). -/
def CheckPassword (hashedPwd plainPwd : String) : Except String Unit :=
  if hashedPwd = "bcrypt$" ++ plainPwd then .ok ()
  else .error "crypto/bcrypt: hashedPassword is not the hash of the given password"

/-- Struct `jwt.RegisteredClaims` restricted to the four claims the code
sets: subject, issuer, issued-at and expiry (numeric dates in Unix
seconds). -/
structure RegisteredClaims where
  subject : String
  issuer : String
  issuedAt : Int
  expiresAt : Int
  deriving Repr, DecidableEq

/-- Dynamic type of the `Claims` interface value inside a parsed
`jwt.Token`.  `golang-jwt/v5` `jwt.Parse` decodes the payload into the
generic map type `jwt.MapClaims`; the `registered` variant is the dynamic
type `jwt.RegisteredClaims`, which `Parse` never produces.  Both variants
carry the decoded payload. -/
inductive JwtClaims where
  | registered (c : RegisteredClaims)
  | mapClaims (c : RegisteredClaims)
  deriving Repr, DecidableEq

/-- Wire JWT produced by `SignedString`: the claims together with the
algorithm header and a symbolic signature (the signing key). -/
structure SignedJwt where
  alg : String
  claims : RegisteredClaims
  sig : String
  deriving Repr, DecidableEq

/-- Method `SignedString` for `jwt.NewWithClaims(alg, claims)`.  HMAC signing
accepts any byte string as key, the empty one included, so signing itself
never fails. -/
def jwtSignedString (alg : String) (claims : RegisteredClaims) (key : String) : SignedJwt :=
  { alg := alg, claims := claims, sig := key }

/-- Parsed token, as `*jwt.Token`: the dynamically typed claims value. -/
structure JwtToken where
  claims : JwtClaims
  deriving Repr, DecidableEq

/-- Function `jwt.Parse` of `golang-jwt/v5` with a key function returning
`key` and the `WithValidMethods` option: checks the algorithm against the
allowed list, verifies the signature with the key, then validates the
claims (a token whose expiry is before `now` is rejected); the claims of a
successfully parsed token are decoded as `jwt.MapClaims`. -/
def jwtParse (tok : SignedJwt) (key : String) (now : Int) (validMethods : List String) :
    Except String JwtToken :=
  if ¬ validMethods.contains tok.alg then
    .error "token is unverifiable: signing method is invalid"
  else if tok.sig ≠ key then
    .error "token signature is invalid"
  else if tok.claims.expiresAt < now then
    .error "token has invalid claims: token is expired"
  else .ok { claims := .mapClaims tok.claims }

/-- Struct `LoginRequest`. -/
structure LoginRequest where
  email : String
  password : String
  deriving Repr, DecidableEq

/-- Struct `Session`; the `Token` field carries the signed JWT. -/
structure Session where
  librarianId : Nat
  token : SignedJwt
  expiresAt : Int
  deriving Repr, DecidableEq

/-- Rendering of a UUID as its canonical string, abstracted as the decimal
form of the model identifier (`uuid.UUID.String`). -/
def uuidToString (id : Nat) : String := toString id

/-- Function `uuid.MustParse`, restricted to the strings `uuidToString`
produces; unreachable in the embedded code because the registered-claims
branch of `DecodeAndValidate` is dead. -/
def uuidMustParse (s : String) : Nat := s.toNat?.getD 0

/-- Function `Login`.  The signing key (environment variable
`AUTH_SIGNING_KEY`) and the current instant are explicit arguments. -/
def Login (loginReq : LoginRequest) (librarian : Librarian)
    (signingKey : String) (now : Int) : Except String Session :=
  if loginReq.email ≠ librarian.email ∨ ¬ (CheckPassword librarian.password loginReq.password).isOk then
    .error "login bad credentials"
  else
    let expiresAt := now + expiryDuration
    .ok { librarianId := librarian.id
          token := jwtSignedString "HS256"
            { subject := uuidToString librarian.id, issuer := "librarium"
              issuedAt := now, expiresAt := expiresAt } signingKey
          expiresAt := expiresAt }

/-- Function `DecodeAndValidate`.  After a successful `jwt.Parse` the code
type-asserts the claims to the value type `jwt.RegisteredClaims`. -/
def DecodeAndValidate (tokenStr : SignedJwt) (signingKey : String) (now : Int) :
    Except String Nat :=
  match jwtParse tokenStr signingKey now ["HS256"] with
  | .error e => .error ("error parsing token " ++ e)
  | .ok token =>
      match token.claims with
      | .registered c => .ok (uuidMustParse c.subject)
      | _ => .error "error while parsing jwt registered claims"

end Librarium.auth

namespace Librarium.json

/-! ## JSON values

Minimal model of the JSON documents handled by the service.  A timestamp
literal (an RFC 3339 string, which `encoding/json` decodes into a
`time.Time`) is carried as an already-parsed `GoTime` leaf.
-/

/-- JSON value. -/
inductive Json where
  | str (s : String)
  | num (n : Int)
  | timeVal (t : GoTime)
  | boolVal (b : Bool)
  | obj (fields : List (String × Json))
  | arr (items : List Json)
  | null
  deriving Repr

/-- Lookup of an object field by key (first occurrence). -/
def lookupField : List (String × Json) → String → Option Json
  | [], _ => none
  | (k, v) :: rest, key => if k = key then some v else lookupField rest key

/-- Decoding of a `string` struct field by `encoding/json`: an absent field
or a JSON `null` keeps the zero value, any other shape than a string is a
type error. -/
def decodeStringField (fs : List (String × Json)) (k : String) : Except String String :=
  match lookupField fs k with
  | none => .ok ""
  | some (.str s) => .ok s
  | some .null => .ok ""
  | some _ => .error ("json: cannot unmarshal value into field " ++ k)

/-- Decoding of an `int` struct field by `encoding/json`. -/
def decodeIntField (fs : List (String × Json)) (k : String) : Except String Int :=
  match lookupField fs k with
  | none => .ok 0
  | some (.num n) => .ok n
  | some .null => .ok 0
  | some _ => .error ("json: cannot unmarshal value into field " ++ k)

/-- Zero value of `time.Time` (January 1, year 1, 00:00:00 UTC). -/
def goZeroTime : GoTime := { year := 1, month := 1, day := 1, nsec := 0 }

/-- Decoding of a `time.Time` struct field by `encoding/json` (an RFC 3339
string on the wire). -/
def decodeTimeField (fs : List (String × Json)) (k : String) : Except String GoTime :=
  match lookupField fs k with
  | none => .ok goZeroTime
  | some (.timeVal t) => .ok t
  | some .null => .ok goZeroTime
  | some _ => .error ("json: cannot unmarshal value into field " ++ k)

end Librarium.json

namespace Librarium.catalog

open Librarium.json

/-! ## JSON codec of package catalog -/

/-- Decoding of a JSON document into struct `Book` per its field tags. -/
def decodeBook (j : Json) : Except String Book :=
  match j with
  | .obj fs => do
      let title ← decodeStringField fs "title"
      let author ← decodeStringField fs "author"
      let publisher ← decodeStringField fs "publisher"
      let isbn ← decodeStringField fs "isbn"
      let pageCount ← decodeIntField fs "page_count"
      let publishedAt ← decodeTimeField fs "published_at"
      return { title := title, author := author, publisher := publisher,
               isbn := isbn, pageCount := pageCount, publishedAt := publishedAt }
  | .null => .ok { title := "", author := "", publisher := "", isbn := "",
                   pageCount := 0, publishedAt := goZeroTime }
  | _ => .error "json: cannot unmarshal value into Go value of type catalog.Book"

/-- Decoding of a JSON document into struct `Magazine`. -/
def decodeMagazine (j : Json) : Except String Magazine :=
  match j with
  | .obj fs => do
      let title ← decodeStringField fs "title"
      let issue ← decodeStringField fs "issue"
      let publisher ← decodeStringField fs "publisher"
      let publishedAt ← decodeTimeField fs "published_at"
      let pageCount ← decodeIntField fs "page_count"
      return { title := title, issue := issue, publisher := publisher,
               publishedAt := publishedAt, pageCount := pageCount }
  | .null => .ok { title := "", issue := "", publisher := "",
                   publishedAt := goZeroTime, pageCount := 0 }
  | _ => .error "json: cannot unmarshal value into Go value of type catalog.Magazine"

/-- Decoding of a JSON document into struct `NewsPaper`. -/
def decodeNewsPaper (j : Json) : Except String NewsPaper :=
  match j with
  | .obj fs => do
      let title ← decodeStringField fs "title"
      let edition ← decodeStringField fs "edition"
      let publisher ← decodeStringField fs "publisher"
      let publishedAt ← decodeTimeField fs "published_at"
      let pageCount ← decodeIntField fs "page_count"
      return { title := title, edition := edition, publisher := publisher,
               publishedAt := publishedAt, pageCount := pageCount }
  | .null => .ok { title := "", edition := "", publisher := "",
                   publishedAt := goZeroTime, pageCount := 0 }
  | _ => .error "json: cannot unmarshal value into Go value of type catalog.NewsPaper"

/-- Decoding of a JSON document into struct `DVD`. -/
def decodeDVD (j : Json) : Except String DVD :=
  match j with
  | .obj fs => do
      let title ← decodeStringField fs "title"
      let director ← decodeStringField fs "director"
      let producer ← decodeStringField fs "producer"
      let durationMin ← decodeIntField fs "duration_min"
      let regionCode ← decodeStringField fs "region_code"
      let releasedAt ← decodeTimeField fs "released_at"
      return { title := title, director := director, producer := producer,
               durationMin := durationMin, regionCode := regionCode, releasedAt := releasedAt }
  | .null => .ok { title := "", director := "", producer := "",
                   durationMin := 0, regionCode := "", releasedAt := goZeroTime }
  | _ => .error "json: cannot unmarshal value into Go value of type catalog.DVD"

/-- Decoding of a JSON document into struct `CD`. -/
def decodeCD (j : Json) : Except String CD :=
  match j with
  | .obj fs => do
      let title ← decodeStringField fs "title"
      let artist ← decodeStringField fs "artist"
      let label ← decodeStringField fs "label"
      let trackCount ← decodeIntField fs "track_count"
      let durationMin ← decodeIntField fs "duration_min"
      let releasedAt ← decodeTimeField fs "released_at"
      return { title := title, artist := artist, label := label,
               trackCount := trackCount, durationMin := durationMin, releasedAt := releasedAt }
  | .null => .ok { title := "", artist := "", label := "",
                   trackCount := 0, durationMin := 0, releasedAt := goZeroTime }
  | _ => .error "json: cannot unmarshal value into Go value of type catalog.CD"

/-- Decoding of a JSON document into struct `VideoGame`. -/
def decodeVideoGame (j : Json) : Except String VideoGame :=
  match j with
  | .obj fs => do
      let title ← decodeStringField fs "title"
      let developer ← decodeStringField fs "developer"
      let platform ← decodeStringField fs "platform"
      let genre ← decodeStringField fs "genre"
      let releasedAt ← decodeTimeField fs "released_at"
      let ageRating ← decodeStringField fs "age_rating"
      return { title := title, developer := developer, platform := platform,
               genre := genre, releasedAt := releasedAt, ageRating := ageRating }
  | .null => .ok { title := "", developer := "", platform := "",
                   genre := "", releasedAt := goZeroTime, ageRating := "" }
  | _ => .error "json: cannot unmarshal value into Go value of type catalog.VideoGame"

/-- Struct `CreateAssetRequest` after decoding: the `category` tag, the raw
`info` document, and the dynamically typed `Asset` value filled in by the
second decoding stage. -/
structure CreateAssetRequest where
  category : AssetCategory
  info : Json
  asset : GoAny
  deriving Repr

/-- Method `(*CreateAssetRequest).UnmarshalJSON`, the two-stage decoder:
stage one decodes `category` and keeps `info` as raw JSON, stage two
switches on the category and decodes `info` as the selected payload shape.
Each branch of the Go switch assigns the decoded struct value (not a
pointer) to the `Asset` field, e.g. `r.Asset = book`, which the `ptr :=
false` flag records. -/
def unmarshalCreateAssetRequest (data : Json) : Except String CreateAssetRequest :=
  match data with
  | .obj fs => do
      let category ← decodeStringField fs "category"
      let info := (lookupField fs "info").getD .null
      if category = AssetCategoryBook then do
        let b ← decodeBook info
        return { category := category, info := info, asset := .book false b }
      else if category = AssetCategoryMagazine then do
        let m ← decodeMagazine info
        return { category := category, info := info, asset := .magazine false m }
      else if category = AssetCategoryNewsPaper then do
        let n ← decodeNewsPaper info
        return { category := category, info := info, asset := .newsPaper false n }
      else if category = AssetCategoryDVD then do
        let d ← decodeDVD info
        return { category := category, info := info, asset := .dvd false d }
      else if category = AssetCategoryCD then do
        let c ← decodeCD info
        return { category := category, info := info, asset := .cd false c }
      else if category = AssetCategoryVideoGame then do
        let v ← decodeVideoGame info
        return { category := category, info := info, asset := .videoGame false v }
      else
        .error ("unknown category: " ++ category)
  | _ => .error "json: cannot unmarshal value into Go value of type catalog.CreateAssetRequest"

end Librarium.catalog

namespace Librarium.web

open Librarium.user Librarium.catalog Librarium.json

/-! ## Package http (src/internal/http)

Controllers are embedded as functions from the decoded request and the
repository answers to the written status code and body.  Repository
results are explicit arguments (`Except` for a fallible call); an
in-memory repository corresponds to instantiating them with `.ok`
values.
-/

/-- Response body written by a handler through `WriteResponse` or a raw
write. -/
inductive RespBody where
  | errorMsg (msg : String)
  | sessionMsg (s : Librarium.auth.Session)
  | idMsg (id : Nat)
  | raw (s : String)
  deriving Repr, DecidableEq

/-- Method `AuthController.Login` (src/internal/http/middleware.go): decode
the login request, look the librarian up by email, call `auth.Login` and
render the outcome.  A `none` body stands for a failed JSON decode; the
repository answer is the `repoLibrarian` argument.  Every error of
`auth.Login` is written with `http.StatusInternalServerError`. -/
def LoginHandler (body : Option Librarium.auth.LoginRequest)
    (repoLibrarian : Except String (Option Librarian))
    (signingKey : String) (now : Int) : Nat × RespBody :=
  match body with
  | none => (400, .errorMsg "error decoding login request")
  | some req =>
      match repoLibrarian with
      | .error _ => (500, .errorMsg "error getting librarian")
      | .ok none => (404, .errorMsg "librarian not found")
      | .ok (some librarian) =>
          match Librarium.auth.Login req librarian signingKey now with
          | .error e => (500, .errorMsg e)
          | .ok s => (200, .sessionMsg s)

/-- Method `CatalogController.Create` (src/internal/http/catalog.go): decode
the create-asset request body, build the asset, store it, answer 200 with
the fresh identifier.  `repoCreate` is the answer of
`CatalogRepository.CreateAsset`. -/
def CreateAssetHandler (newId : Nat) (now : GoTime) (body : Json)
    (repoCreate : Except String Unit) : Nat × RespBody :=
  match unmarshalCreateAssetRequest body with
  | .error _ => (400, .errorMsg "error decoding asset request")
  | .ok req =>
      match BuildAsset newId now req.asset with
      | .error e => (400, .errorMsg e)
      | .ok asset =>
          match repoCreate with
          | .error _ => (500, .errorMsg "error creating asset catalog")
          | .ok _ => (200, .idMsg asset.id)

/-- Incoming request as the middleware observes it: method, path and the
value of the Content-Type header (empty when absent). -/
structure Request where
  method : String
  path : String
  contentType : String
  deriving Repr, DecidableEq

/-- Effect of a handler on the `http.ResponseWriter`, recorded as a trace. -/
inductive RespAction where
  | setHeader (key value : String)
  | writeHeader (status : Nat)
  | write (body : RespBody)
  deriving Repr, DecidableEq

/-- Handler: a request mapped to the writer actions it performs. -/
def Handler := Request → List RespAction

/-- Function `WriteResponse` applied to an error value: set the
Content-Type header, write the status code, then write the error
envelope. -/
def WriteResponseError (status : Nat) (msg : String) : List RespAction :=
  [.setHeader "Content-Type" "application/json", .writeHeader status, .write (.errorMsg msg)]

/-- Function `JsonContentTypeMiddleware` (src/internal/http/json.go): for a
POST or PUT request whose Content-Type header is not `application/json` it
writes the 400 error response; the guarded branch has no `return`
statement, so the wrapped handler runs afterwards in every case. -/
def JsonContentTypeMiddleware (next : Handler) : Handler := fun r =>
  if (r.method = "POST" ∨ r.method = "PUT") ∧ r.contentType ≠ "application/json" then
    WriteResponseError 400 "Content-Type must be application/json" ++ next r
  else next r

/-- State of the `http.ResponseWriter`: the committed status code, the
response headers and the body chunks written so far. -/
structure RespState where
  status : Option Nat
  headers : List (String × String)
  body : List RespBody
  deriving Repr, DecidableEq

/-- Semantics of one writer action, as `net/http`: the first `WriteHeader`
commits the status and later ones are ignored; a body write with no status
committed implicitly commits 200. -/
def applyAction (st : RespState) : RespAction → RespState
  | .setHeader k v => { st with headers := st.headers ++ [(k, v)] }
  | .writeHeader code =>
      if st.status.isSome then st else { st with status := some code }
  | .write b =>
      match st.status with
      | some _ => { st with body := st.body ++ [b] }
      | none => { st with status := some 200, body := st.body ++ [b] }

/-- Response produced by running a trace of writer actions. -/
def runActions (acts : List RespAction) : RespState :=
  acts.foldl applyAction { status := none, headers := [], body := [] }

/-- Probe handler used to observe whether a middleware invokes the handler
it wraps. -/
def handlerProbe : Handler := fun _ => [.write (.raw "from-handler")]

end Librarium.web

namespace Librarium.query

/-! ## Package query (src/internal/query)

The Go `url.Values` of a request is a map from parameter name to the list
of its values; it is embedded as an association list whose order is the
(unspecified) Go map iteration order, with pairwise distinct names.  The
`Filters` map is likewise an association list updated in place.
-/

/-- Enum `FilterType` (src/internal/query/filter.go). -/
inductive FilterType where
  | unknown
  | filterIn
  | notIn
  | equal
  | greaterEqual
  | greater
  | lowerEqual
  | lower
  | range
  | notEqual
  | like
  deriving Repr, DecidableEq

/-- Struct `RangeFilter`; the Go fields are `From` and `To`. -/
structure RangeFilter where
  fromVal : String
  toVal : String
  deriving Repr, DecidableEq

/-- Dynamic value stored in the `Value any` field of a `Filter`: the code
stores a single string, a slice of strings, or a `RangeFilter`. -/
inductive FilterValue where
  | strVal (s : String)
  | listVal (vs : List String)
  | rangeVal (r : RangeFilter)
  deriving Repr, DecidableEq

/-- Struct `Filter`. -/
structure Filter where
  type : FilterType
  value : FilterValue
  deriving Repr, DecidableEq

/-- Go map type `Filters`, as an association list keyed by field name. -/
abbrev Filters := List (String × Filter)

/-- Lookup in the `Filters` map (`f, ok := filters[k]`). -/
def getFilter : Filters → String → Option Filter
  | [], _ => none
  | (k, f) :: rest, key => if k = key then some f else getFilter rest key

/-- Assignment into the `Filters` map (`filters[k] = f`). -/
def setFilter : Filters → String → Filter → Filters
  | [], key, f => [(key, f)]
  | (k, g) :: rest, key, f =>
      if k = key then (key, f) :: rest else (k, g) :: setFilter rest key f

/-- Test of a character-list pattern occurring at the start of a
character list. -/
def leadMatch : List Char → List Char → Bool
  | [], _ => true
  | _ :: _, [] => false
  | p :: ps, c :: cs => p = c && leadMatch ps cs

/-- Test of a character-list pattern occurring anywhere in a character
list. -/
def hasSub (pat : List Char) : List Char → Bool
  | [] => leadMatch pat []
  | c :: cs => leadMatch pat (c :: cs) || hasSub pat cs

/-- Function `strings.Contains`. -/
def goContains (s sub : String) : Bool := hasSub sub.data s.data

/-- Function `strings.HasSuffix`, at character level: the pattern read
backwards leads the string read backwards. -/
def goHasSuffix (s sfx : String) : Bool :=
  leadMatch sfx.data.reverse s.data.reverse

/-- Function `strings.TrimSuffix`: drop the suffix when present, otherwise
return the string unchanged. -/
def goTrimSuffix (s sfx : String) : String :=
  if goHasSuffix s sfx then String.mk (s.data.take (s.data.length - sfx.data.length))
  else s

/-- Function `isParameterAllowed`: every name other than the four reserved
parameters. -/
def isParameterAllowed (name : String) : Bool :=
  name ≠ "limit" && name ≠ "offset" && name ≠ "sort_by" && name ≠ "descending"

/-- Function `cleanUpField`: trim the suffixes in the fixed source order,
each at most once. -/
def cleanUpField (field : String) : String :=
  goTrimSuffix (goTrimSuffix (goTrimSuffix (goTrimSuffix (goTrimSuffix field "[]")
    "_from") "_to") "_like") "_not"

/-- Go type assertion `f.Value.(RangeFilter)`; the embedded code reaches it
only behind a check of `f.Type`, where the value is a `RangeFilter`. -/
def rangeOfValue : FilterValue → RangeFilter
  | .rangeVal r => r
  | _ => { fromVal := "", toVal := "" }

/-- Function `filterFromParamName`: the operator chosen from the shape of
the parameter name, with the running `filters` map consulted to merge the
two halves of a range.  `value` is the non-empty list of occurrences of
the parameter (`value[0]` is its first value). -/
def filterFromParamName (name : String) (value : List String) (filters : Filters) : Filter :=
  if goContains name "[]" then
    { type := .filterIn, value := .listVal value }
  else if goHasSuffix name "_from" then
    match getFilter filters (cleanUpField name) with
    | some f =>
        if f.type = .range then
          { type := .range,
            value := .rangeVal { fromVal := value.headD "", toVal := (rangeOfValue f.value).toVal } }
        else { type := .range, value := .rangeVal { fromVal := value.headD "", toVal := "" } }
    | none => { type := .range, value := .rangeVal { fromVal := value.headD "", toVal := "" } }
  else if goHasSuffix name "_to" then
    match getFilter filters (cleanUpField name) with
    | some f =>
        if f.type = .range then
          { type := .range,
            value := .rangeVal { fromVal := (rangeOfValue f.value).fromVal, toVal := value.headD "" } }
        else { type := .range, value := .rangeVal { fromVal := "", toVal := value.headD "" } }
    | none => { type := .range, value := .rangeVal { fromVal := "", toVal := value.headD "" } }
  else if goHasSuffix name "_not" then
    { type := .notEqual, value := .strVal (value.headD "") }
  else if goHasSuffix name "_like" then
    { type := .like, value := .strVal (value.headD "") }
  else
    { type := .equal, value := .strVal (value.headD "") }

/-- Loop body of `FiltersFromHTTPRequest` over the query parameters, with
the `filters` map as explicit accumulator: a reserved parameter is skipped,
any other is turned into a filter and assigned under its cleaned-up key. -/
def filtersFold (fs : Filters) : List (String × List String) → Filters
  | [] => fs
  | p :: rest =>
      filtersFold
        (if isParameterAllowed p.1 then
          setFilter fs (cleanUpField p.1) (filterFromParamName p.1 p.2 fs)
        else fs) rest

/-- Function `FiltersFromHTTPRequest`, iterating the query parameters in
the order of the list, starting from the empty map. -/
def FiltersFromHTTPRequest (params : List (String × List String)) : Filters :=
  filtersFold [] params

/-- Mapping of one query parameter to its filter as claim C9 words it: the
stored key is the name with its recognised suffix stripped (one suffix),
and the operator is selected by that suffix, with `[]` treated as a
suffix. -/
def claimFilterOfParam (name : String) (value : List String) : Filter :=
  if goHasSuffix name "[]" then
    { type := .filterIn, value := .listVal value }
  else if goHasSuffix name "_from" then
    { type := .range, value := .rangeVal { fromVal := value.headD "", toVal := "" } }
  else if goHasSuffix name "_to" then
    { type := .range, value := .rangeVal { fromVal := "", toVal := value.headD "" } }
  else if goHasSuffix name "_not" then
    { type := .notEqual, value := .strVal (value.headD "") }
  else if goHasSuffix name "_like" then
    { type := .like, value := .strVal (value.headD "") }
  else
    { type := .equal, value := .strVal (value.headD "") }

/-- Field key of one query parameter as claim C9 words it: the parameter
name with its single recognised suffix stripped. -/
def claimFieldOfParam (name : String) : String :=
  if goHasSuffix name "[]" then goTrimSuffix name "[]"
  else if goHasSuffix name "_from" then goTrimSuffix name "_from"
  else if goHasSuffix name "_to" then goTrimSuffix name "_to"
  else if goHasSuffix name "_not" then goTrimSuffix name "_not"
  else if goHasSuffix name "_like" then goTrimSuffix name "_like"
  else name

/-- Mapping of one parameter by the code when the running map holds no
filter under its key yet; the amended claim C9 describes exactly this
per-parameter rule. -/
def specFilterOfParam (name : String) (value : List String) : Filter :=
  filterFromParamName name value []

end Librarium.query

namespace Librarium

/-! ## Concrete fixtures

Concrete entities used by the counterexamples and witnesses; the customer
data is the successful input of the repository test
`TestBuildCustomer`. -/

/-- Concrete address. -/
def testAddress : user.Address :=
  { street := "c/ green", city := "Barcelona", state := "Barcelona",
    postalCode := "17645", country := "ES" }

/-- Concrete contact details. -/
def testCD : user.ContactDetails :=
  { email := "john.smith@test.com", phoneNumber := "+34 678987564",
    address := some testAddress }

/-- Customer exactly as `BuildCustomer` constructs it from the data above
(identifier 1): note the empty status field. -/
def testCust : user.Customer :=
  { id := 1, name := "John", lastName := "Smith", status := "",
    nationalID := "45869584-M", contactDetails := some testCD }

/-- Concrete book payload, the literal body of spec scenario 4. -/
def book1984 : catalog.Book :=
  { title := "1984", author := "George Orwell", publisher := "Secker & Warburg",
    isbn := "978-0451524935", pageCount := 328,
    publishedAt := { year := 1949, month := 6, day := 8, nsec := 0 } }

/-- Concrete catalog asset holding the book payload behind a pointer, as a
stored asset would. -/
def testAsset : catalog.Asset :=
  { id := 3, createdAt := { year := 2025, month := 5, day := 10, nsec := 0 },
    updatedAt := { year := 2025, month := 5, day := 10, nsec := 0 },
    category := catalog.AssetCategoryBook, info := .book true book1984 }

/-- JSON document of the create-asset request of spec scenario 4. -/
def bookBodyJson : json.Json :=
  .obj [("category", .str "BOOK"),
        ("info", .obj [("title", .str "1984"),
                       ("author", .str "George Orwell"),
                       ("publisher", .str "Secker & Warburg"),
                       ("isbn", .str "978-0451524935"),
                       ("page_count", .num 328),
                       ("published_at", .timeVal { year := 1949, month := 6, day := 8, nsec := 0 })])]

/-- Rental produced by `Rent` for `testCust` and `testAsset` at midnight of
January 15, 2025, with identifier 9. -/
def testRental15 : rental.Rental :=
  { id := 9, customerId := 1, assetId := 3,
    rentedAt := { year := 2025, month := 1, day := 15, nsec := 0 },
    dueAt := { year := 2025, month := 2, day := 15, nsec := 0 },
    returnedAt := none, status := rental.RentalStatusActive }

end Librarium

namespace Librarium

/-! ## Calendar lemmas -/

theorem isLeap_spec (y : Nat) :
    isLeap y = true ↔ ((y % 4 = 0 ∧ y % 100 ≠ 0) ∨ y % 400 = 0) := by
  simp [isLeap]

theorem leapsBefore_succ (y : Nat) :
    leapsBefore (y + 1) = leapsBefore y + (if isLeap y then 1 else 0) := by
  have h4 : (y + 99) / 100 ≤ (y + 3) / 4 := by omega
  have e4 : (y + 1 + 3) / 4 = (y + 3) / 4 + (if y % 4 = 0 then 1 else 0) := by
    split_ifs with c <;> omega
  have e100 : (y + 1 + 99) / 100 = (y + 99) / 100 + (if y % 100 = 0 then 1 else 0) := by
    split_ifs with c <;> omega
  have e400 : (y + 1 + 399) / 400 = (y + 399) / 400 + (if y % 400 = 0 then 1 else 0) := by
    split_ifs with c <;> omega
  rcases hL : isLeap y with _ | _
  · have hnot : ¬ ((y % 4 = 0 ∧ y % 100 ≠ 0) ∨ y % 400 = 0) := by
      rw [← isLeap_spec, hL]; simp
    push_neg at hnot
    by_cases c4 : y % 4 = 0 <;> by_cases c100 : y % 100 = 0 <;> by_cases c400 : y % 400 = 0 <;>
      simp only [c4, c100, c400, if_true, if_false] at e4 e100 e400 <;>
      simp only [leapsBefore, e4, e100, e400, hL, if_false, Bool.false_eq_true] <;>
      omega
  · have hyes : (y % 4 = 0 ∧ y % 100 ≠ 0) ∨ y % 400 = 0 := (isLeap_spec y).mp hL
    by_cases c4 : y % 4 = 0 <;> by_cases c100 : y % 100 = 0 <;> by_cases c400 : y % 400 = 0 <;>
      simp only [c4, c100, c400, if_true, if_false] at e4 e100 e400 <;>
      simp only [leapsBefore, e4, e100, e400, hL, if_true] <;>
      omega

theorem monthLen_ge (leap : Bool) (m : Nat) (h1 : 1 ≤ m) (h2 : m ≤ 12) :
    28 ≤ monthLen leap m := by
  interval_cases m <;> cases leap <;> decide

theorem daysBeforeMonth_succ (leap : Bool) (m : Nat) :
    daysBeforeMonth leap (m + 1) = daysBeforeMonth leap m + monthLen leap m := rfl

theorem daysBeforeMonth_one (leap : Bool) : daysBeforeMonth leap 1 = 0 := by
  cases leap <;> decide

theorem daysBeforeMonth_12_monthLen (leap : Bool) :
    daysBeforeMonth leap 12 + monthLen leap 12 = 365 + (if leap then 1 else 0) := by
  cases leap <;> decide

theorem addMonths_eq_monthsTime (t : GoTime) (n : Nat)
    (_h1 : 1 ≤ t.month) (_h2 : t.month ≤ 12) (hd : t.day ≤ 28) :
    t.addMonths n = monthsTime t.day t.nsec (12 * t.year + (t.month - 1) + n) := by
  have hm1 : 1 ≤ (12 * t.year + (t.month - 1) + n) % 12 + 1 := by omega
  have hm2 : (12 * t.year + (t.month - 1) + n) % 12 + 1 ≤ 12 := by omega
  have hlen := monthLen_ge (isLeap ((12 * t.year + (t.month - 1) + n) / 12))
    ((12 * t.year + (t.month - 1) + n) % 12 + 1) hm1 hm2
  have hno : ¬ (monthLen (isLeap ((12 * t.year + (t.month - 1) + n) / 12))
      ((12 * t.year + (t.month - 1) + n) % 12 + 1) < t.day) := by omega
  simp only [GoTime.addMonths, normDay, hno, if_neg, not_false_iff, monthsTime]

theorem monthsTime_addMonths (d ns tm n : Nat) (hd : d ≤ 28) :
    (monthsTime d ns tm).addMonths n = monthsTime d ns (tm + n) := by
  have e : 12 * (monthsTime d ns tm).year + ((monthsTime d ns tm).month - 1) + n = tm + n := by
    simp only [monthsTime]
    omega
  rw [addMonths_eq_monthsTime (monthsTime d ns tm) n (by simp [monthsTime])
    (by simp only [monthsTime]; omega) (by simpa [monthsTime] using hd), e]
  rfl

theorem absDays_monthsTime_succ (d ns tm : Nat) :
    (monthsTime d ns (tm + 1)).absDays
      = (monthsTime d ns tm).absDays + monthLen (isLeap (tm / 12)) (tm % 12 + 1) := by
  rcases Nat.lt_or_ge (tm % 12) 11 with h | h
  · have e1 : (tm + 1) / 12 = tm / 12 := by omega
    have e2 : (tm + 1) % 12 = tm % 12 + 1 := by omega
    simp only [monthsTime, GoTime.absDays, e1, e2, daysBeforeMonth_succ]
    omega
  · have e1 : (tm + 1) / 12 = tm / 12 + 1 := by omega
    have e2 : (tm + 1) % 12 + 1 = 1 := by omega
    have e3 : tm % 12 + 1 = 12 := by omega
    have h12 := daysBeforeMonth_12_monthLen (isLeap (tm / 12))
    have hsucc := leapsBefore_succ (tm / 12)
    simp only [monthsTime, GoTime.absDays, e1, e2, e3, daysBeforeMonth_one]
    cases hL : isLeap (tm / 12) <;> rw [hL] at h12 hsucc <;> simp at h12 hsucc <;> omega

theorem absDays_monthsTime_strictMono (d ns : Nat) {a b : Nat} (h : a < b) :
    (monthsTime d ns a).absDays < (monthsTime d ns b).absDays := by
  induction b with
  | zero => omega
  | succ k ih =>
      have step := absDays_monthsTime_succ d ns k
      have hlen := monthLen_ge (isLeap (k / 12)) (k % 12 + 1) (by omega) (by omega)
      rcases Nat.lt_or_ge a k with h2 | h2
      · have := ih h2
        omega
      · have ha : a = k := by omega
        subst ha
        omega

theorem absDays_monthsTime_nsec (d nsa nsb tm : Nat) :
    (monthsTime d nsa tm).absDays = (monthsTime d nsb tm).absDays := rfl

theorem after_monthsTime_lt (d nsa nsb : Nat) {a b : Nat} (h : a < b) :
    (monthsTime d nsa a).after (monthsTime d nsb b) = false := by
  have hmono := absDays_monthsTime_strictMono d nsa h
  have heq := absDays_monthsTime_nsec d nsb nsa b
  have h1 : ¬ ((monthsTime d nsb b).absDays < (monthsTime d nsa a).absDays) := by omega
  have h2 : (monthsTime d nsa a).absDays ≠ (monthsTime d nsb b).absDays := by omega
  simp [GoTime.after, h1, h2]

theorem after_monthsTime_gt (d nsa nsb : Nat) {a b : Nat} (h : b < a) :
    (monthsTime d nsa a).after (monthsTime d nsb b) = true := by
  have hmono := absDays_monthsTime_strictMono d nsa h
  have heq := absDays_monthsTime_nsec d nsb nsa b
  have h1 : (monthsTime d nsb b).absDays < (monthsTime d nsa a).absDays := by omega
  simp [GoTime.after, h1]

theorem after_monthsTime_same (d nsa nsb tm : Nat) :
    (monthsTime d nsa tm).after (monthsTime d nsb tm) = decide (nsb < nsa) := by
  have heq : (monthsTime d nsb tm).absDays = (monthsTime d nsa tm).absDays := rfl
  have hn1 : (monthsTime d nsa tm).nsec = nsa := rfl
  have hn2 : (monthsTime d nsb tm).nsec = nsb := rfl
  simp only [GoTime.after, heq, hn1, hn2]
  simp

end Librarium

namespace Librarium

/-! ## Helper lemmas about Except -/

theorem isOk_error {ε α : Type} (e : ε) : (Except.error e : Except ε α).isOk = false := rfl

theorem isOk_ok {ε α : Type} (a : α) : (Except.ok a : Except ε α).isOk = true := rfl

end Librarium

namespace Librarium

open Librarium.user Librarium.catalog Librarium.rental

/-! ## Claims about package user and package rental -/

/-- Claim C4, counterexample: `BuildCustomer` succeeds on a concrete fully
valid input, yet the constructed customer's status is not ACTIVE (it is the
empty string). -/
theorem claim_C4_counterexample :
    BuildCustomer 1 "John" "Smith" "45869584-M" (some testCD) = .ok testCust
    ∧ testCust.status ≠ CustomerStatusActive := by
  constructor
  · rfl
  · decide

/-- Claim C4, amended: for every input on which `BuildCustomer` succeeds
(all required text fields non-empty, contact details and address present),
the constructed customer's status is the empty string, the Go zero value of
the status type, not ACTIVE. -/
theorem claim_C4_amended (newId : Nat) (name lastName nationalID : String)
    (contactDetails : Option ContactDetails) (c : Customer)
    (h : BuildCustomer newId name lastName nationalID contactDetails = .ok c) :
    c.status = "" := by
  unfold BuildCustomer at h
  split_ifs at h
  rcases contactDetails with _ | cd
  · simp at h
  · rcases hv : cd.validate with e | u <;> simp [hv] at h
    rw [← h]

/-- Claim C4, witness of the amended claim at the concrete valid input. -/
theorem claim_C4_witness :
    BuildCustomer 1 "John" "Smith" "45869584-M" (some testCD) = .ok testCust
    ∧ testCust.status = "" :=
  ⟨by rfl, claim_C4_amended 1 "John" "Smith" "45869584-M" (some testCD) testCust (by rfl)⟩

/-- Claim C5, counterexample: the customer constructed by `BuildCustomer`
has the empty status, and `Rent` with no active rental and no prior rentals
succeeds for it although its status is not ACTIVE, refuting the claimed
equivalence between admission and status ACTIVE. -/
theorem claim_C5_counterexample :
    BuildCustomer 1 "John" "Smith" "45869584-M" (some testCD) = .ok testCust
    ∧ (Rent testCust testAsset none [] 7 { year := 2025, month := 5, day := 10, nsec := 0 }
        { year := 2025, month := 5, day := 10, nsec := 0 }).isOk = true
    ∧ testCust.status ≠ CustomerStatusActive := by
  refine ⟨by rfl, by rfl, by decide⟩

/-- Claim C5, amended: for every customer, asset, no active rental, and a
list of fewer than 5 customer rentals none of which is OVERDUE, `Rent`
succeeds if and only if the customer's status is not SUSPENDED. -/
theorem claim_C5_amended (c : Customer) (a : Asset) (customerRentals : List Rental)
    (newId : Nat) (now nowDue : GoTime)
    (hlen : customerRentals.length < 5)
    (hov : ∀ r ∈ customerRentals, r.status ≠ RentalStatusOverdue) :
    (Rent c a none customerRentals newId now nowDue).isOk = true
      ↔ c.status ≠ CustomerStatusSuspended := by
  have h2 : ¬ (maxNumberOfRentals ≤ customerRentals.length) := by
    simp only [maxNumberOfRentals]
    omega
  have h3 : customerRentals.any (fun r => r.status == RentalStatusOverdue) = false := by
    rw [List.any_eq_false]
    intro x hx
    simp only [beq_iff_eq]
    exact hov x hx
  unfold Rent
  rw [if_neg (by simp), if_neg h2, if_neg (by simp [h3])]
  split_ifs with hs
  · simp [isOk_error, hs]
  · simp [isOk_ok, hs]

/-- Claim C5, witness of the amended claim at a concrete admissible
customer. -/
theorem claim_C5_witness :
    ([] : List Rental).length < 5
    ∧ ((Rent testCust testAsset none [] 7 { year := 2025, month := 5, day := 10, nsec := 0 }
          { year := 2025, month := 5, day := 10, nsec := 0 }).isOk = true
        ↔ testCust.status ≠ CustomerStatusSuspended) :=
  ⟨by decide,
   claim_C5_amended testCust testAsset [] 7 { year := 2025, month := 5, day := 10, nsec := 0 }
     { year := 2025, month := 5, day := 10, nsec := 0 } (by decide) (by simp)⟩

/-- Claim C6: `Rent` checks its four admission rules in the stated order,
returns the error of the first violated rule, and succeeds exactly when no
rule is violated. -/
theorem claim_C6 (c : Customer) (a : Asset) (activeRental : Option Rental)
    (customerRentals : List Rental) (newId : Nat) (now nowDue : GoTime) :
    (activeRental ≠ none →
        Rent c a activeRental customerRentals newId now nowDue
          = .error "catalog asset already rented")
    ∧ (activeRental = none → 5 ≤ customerRentals.length →
        Rent c a activeRental customerRentals newId now nowDue
          = .error "customer max number of rentals reached")
    ∧ (activeRental = none → customerRentals.length < 5 →
        (∃ r ∈ customerRentals, r.status = RentalStatusOverdue) →
        Rent c a activeRental customerRentals newId now nowDue
          = .error "the customer has already a rental in overdue")
    ∧ (activeRental = none → customerRentals.length < 5 →
        (∀ r ∈ customerRentals, r.status ≠ RentalStatusOverdue) →
        c.status = CustomerStatusSuspended →
        Rent c a activeRental customerRentals newId now nowDue
          = .error "cannot rent the asset, customer is suspended")
    ∧ ((Rent c a activeRental customerRentals newId now nowDue).isOk = true ↔
        (activeRental = none ∧ customerRentals.length < 5 ∧
         (∀ r ∈ customerRentals, r.status ≠ RentalStatusOverdue) ∧
         c.status ≠ CustomerStatusSuspended)) := by
  refine ⟨?_, ?_, ?_, ?_, ?_⟩
  · intro hact
    rcases activeRental with _ | r0
    · exact absurd rfl hact
    · rfl
  · intro hact hlen
    subst hact
    unfold Rent
    rw [if_neg (by simp), if_pos (by simpa [maxNumberOfRentals] using hlen)]
  · intro hact hlen hov
    subst hact
    have h3 : customerRentals.any (fun r => r.status == RentalStatusOverdue) = true := by
      rw [List.any_eq_true]
      rcases hov with ⟨r, hr, hst⟩
      exact ⟨r, hr, by simpa using hst⟩
    unfold Rent
    rw [if_neg (by simp), if_neg (by simp only [maxNumberOfRentals]; omega),
      if_pos (by simp [h3])]
  · intro hact hlen hov hsusp
    subst hact
    have h3 : customerRentals.any (fun r => r.status == RentalStatusOverdue) = false := by
      rw [List.any_eq_false]
      intro x hx
      simp only [beq_iff_eq]
      exact hov x hx
    unfold Rent
    rw [if_neg (by simp), if_neg (by simp only [maxNumberOfRentals]; omega),
      if_neg (by simp [h3]), if_pos hsusp]
  · rcases activeRental with _ | r0
    · unfold Rent
      rw [if_neg (by simp)]
      by_cases hlen : maxNumberOfRentals ≤ customerRentals.length
      · rw [if_pos hlen]
        simp only [maxNumberOfRentals] at hlen
        rw [isOk_error]
        constructor
        · intro hfalse
          simp at hfalse
        · rintro ⟨_, h5, _, _⟩
          omega
      · rw [if_neg hlen]
        simp only [maxNumberOfRentals] at hlen
        by_cases hany : customerRentals.any (fun r => r.status == RentalStatusOverdue) = true
        · rw [if_pos hany]
          rw [List.any_eq_true] at hany
          rcases hany with ⟨r, hr, hst⟩
          simp only [beq_iff_eq] at hst
          rw [isOk_error]
          constructor
          · intro hfalse
            simp at hfalse
          · rintro ⟨_, _, hov, _⟩
            exact absurd hst (hov r hr)
        · rw [if_neg hany]
          rw [Bool.not_eq_true, List.any_eq_false] at hany
          split_ifs with hs
          · rw [isOk_error]
            constructor
            · intro hfalse
              simp at hfalse
            · rintro ⟨_, _, _, hns⟩
              exact absurd hs hns
          · rw [isOk_ok]
            constructor
            · intro _
              refine ⟨rfl, by omega, ?_, hs⟩
              intro r hr
              have hx := hany r hr
              simp only [beq_iff_eq] at hx
              exact hx
            · intro _
              rfl
    · unfold Rent
      rw [if_pos (by simp), isOk_error]
      constructor
      · intro hfalse
        simp at hfalse
      · rintro ⟨hnone, _, _, _⟩
        exact absurd hnone (by simp)

/-- Claim C6, witness: the first-rule error at a concrete input where the
asset is already rented and the customer is also suspended, and admission
at a concrete input satisfying all four rules. -/
theorem claim_C6_witness :
    Rent { testCust with status := CustomerStatusSuspended } testAsset
        (some { id := 8, customerId := 1, assetId := 3,
                rentedAt := { year := 2025, month := 4, day := 1, nsec := 0 },
                dueAt := { year := 2025, month := 5, day := 1, nsec := 0 },
                returnedAt := none, status := RentalStatusActive })
        [] 7 { year := 2025, month := 5, day := 10, nsec := 0 }
        { year := 2025, month := 5, day := 10, nsec := 0 }
      = .error "catalog asset already rented"
    ∧ (Rent testCust testAsset none [] 7 { year := 2025, month := 5, day := 10, nsec := 0 }
        { year := 2025, month := 5, day := 10, nsec := 0 }).isOk = true :=
  ⟨(claim_C6 { testCust with status := CustomerStatusSuspended } testAsset
      (some { id := 8, customerId := 1, assetId := 3,
              rentedAt := { year := 2025, month := 4, day := 1, nsec := 0 },
              dueAt := { year := 2025, month := 5, day := 1, nsec := 0 },
              returnedAt := none, status := RentalStatusActive })
      [] 7 { year := 2025, month := 5, day := 10, nsec := 0 }
      { year := 2025, month := 5, day := 10, nsec := 0 }).1 (by simp),
   ((claim_C6 testCust testAsset none [] 7
      { year := 2025, month := 5, day := 10, nsec := 0 }
      { year := 2025, month := 5, day := 10, nsec := 0 }).2.2.2.2).mpr
     ⟨rfl, by decide, by simp, by decide⟩⟩

/-- Claim C10: `Return` succeeds exactly on the rentals whose status is not
RETURNED, so an OVERDUE rental can be returned, after which its status is
RETURNED and its returned-at timestamp is set. -/
theorem claim_C10 (r : Rental) (now : GoTime) :
    ((ReturnOp r now).isOk = true ↔ r.status ≠ RentalStatusReturned)
    ∧ (r.status = RentalStatusOverdue →
        ReturnOp r now
          = .ok { r with status := RentalStatusReturned, returnedAt := some now }) := by
  unfold ReturnOp
  constructor
  · split_ifs with h
    · rw [isOk_error]
      simp [h]
    · rw [isOk_ok]
      simp [h]
  · intro h
    rw [if_neg (by rw [h]; decide)]

/-- Claim C10, witness: a concrete OVERDUE rental is returned
successfully. -/
theorem claim_C10_witness :
    ({ id := 4, customerId := 1, assetId := 3,
       rentedAt := { year := 2025, month := 3, day := 1, nsec := 0 },
       dueAt := { year := 2025, month := 4, day := 1, nsec := 0 },
       returnedAt := none, status := RentalStatusOverdue } : Rental).status = RentalStatusOverdue
    ∧ ReturnOp
        { id := 4, customerId := 1, assetId := 3,
          rentedAt := { year := 2025, month := 3, day := 1, nsec := 0 },
          dueAt := { year := 2025, month := 4, day := 1, nsec := 0 },
          returnedAt := none, status := RentalStatusOverdue }
        { year := 2025, month := 4, day := 20, nsec := 0 }
      = .ok { id := 4, customerId := 1, assetId := 3,
              rentedAt := { year := 2025, month := 3, day := 1, nsec := 0 },
              dueAt := { year := 2025, month := 4, day := 1, nsec := 0 },
              returnedAt := some { year := 2025, month := 4, day := 20, nsec := 0 },
              status := RentalStatusReturned } :=
  ⟨rfl,
   (claim_C10
      { id := 4, customerId := 1, assetId := 3,
        rentedAt := { year := 2025, month := 3, day := 1, nsec := 0 },
        dueAt := { year := 2025, month := 4, day := 1, nsec := 0 },
        returnedAt := none, status := RentalStatusOverdue }
      { year := 2025, month := 4, day := 20, nsec := 0 }).2 rfl⟩

end Librarium

namespace Librarium

open Librarium.user Librarium.catalog Librarium.rental

/-! ## Claim C7: the Extend state machine -/

/-- Claim C7, counterexample: two executions of `Rent` refute "exactly two
consecutive Extend calls succeed and the third fails".  First, renting on
January 31, 2025 (both clock readings equal): `AddDate` normalises the
overflowing day (January 31 plus one month is March 3, while the
three-month limit lands on May 1), so the second `Extend` already fails.
Second, renting on January 15, 2025 with the second clock reading one
nanosecond after the first: the due date is based on the later reading, so
after one successful `Extend` the next candidate due date lands on the
same calendar day as the three-month limit but one nanosecond later, hence
`After` it, and the second `Extend` already fails with no day overflow at
all. -/
theorem claim_C7_counterexample :
    (Rent testCust testAsset none [] 9 { year := 2025, month := 1, day := 31, nsec := 0 }
        { year := 2025, month := 1, day := 31, nsec := 0 }
      = .ok { id := 9, customerId := 1, assetId := 3,
              rentedAt := { year := 2025, month := 1, day := 31, nsec := 0 },
              dueAt := { year := 2025, month := 3, day := 3, nsec := 0 },
              returnedAt := none, status := RentalStatusActive }
    ∧ Extend { id := 9, customerId := 1, assetId := 3,
               rentedAt := { year := 2025, month := 1, day := 31, nsec := 0 },
               dueAt := { year := 2025, month := 3, day := 3, nsec := 0 },
               returnedAt := none, status := RentalStatusActive }
      = .ok { id := 9, customerId := 1, assetId := 3,
              rentedAt := { year := 2025, month := 1, day := 31, nsec := 0 },
              dueAt := { year := 2025, month := 4, day := 3, nsec := 0 },
              returnedAt := none, status := RentalStatusActive }
    ∧ Extend { id := 9, customerId := 1, assetId := 3,
               rentedAt := { year := 2025, month := 1, day := 31, nsec := 0 },
               dueAt := { year := 2025, month := 4, day := 3, nsec := 0 },
               returnedAt := none, status := RentalStatusActive }
      = .error "extend max months reached")
    ∧ (Rent testCust testAsset none [] 9 { year := 2025, month := 1, day := 15, nsec := 0 }
        { year := 2025, month := 1, day := 15, nsec := 1 }
      = .ok { id := 9, customerId := 1, assetId := 3,
              rentedAt := { year := 2025, month := 1, day := 15, nsec := 0 },
              dueAt := { year := 2025, month := 2, day := 15, nsec := 1 },
              returnedAt := none, status := RentalStatusActive }
    ∧ Extend { id := 9, customerId := 1, assetId := 3,
               rentedAt := { year := 2025, month := 1, day := 15, nsec := 0 },
               dueAt := { year := 2025, month := 2, day := 15, nsec := 1 },
               returnedAt := none, status := RentalStatusActive }
      = .ok { id := 9, customerId := 1, assetId := 3,
              rentedAt := { year := 2025, month := 1, day := 15, nsec := 0 },
              dueAt := { year := 2025, month := 3, day := 15, nsec := 1 },
              returnedAt := none, status := RentalStatusActive }
    ∧ Extend { id := 9, customerId := 1, assetId := 3,
               rentedAt := { year := 2025, month := 1, day := 15, nsec := 0 },
               dueAt := { year := 2025, month := 3, day := 15, nsec := 1 },
               returnedAt := none, status := RentalStatusActive }
      = .error "extend max months reached") := by
  exact ⟨⟨by rfl, by rfl, by rfl⟩, by rfl, by rfl, by rfl⟩

end Librarium

namespace Librarium

open Librarium.user Librarium.catalog Librarium.rental

/-- Claim C7, amended: for every rental, `Extend` fails on a RETURNED
rental, otherwise fails with the extend-limit error exactly when the new
due date is after rentedAt plus three months and otherwise advances the due
date one month and sets status ACTIVE; and for a rental freshly produced by
`Rent` with both clock readings on the same calendar date whose day of
month is at most 28 (so that no calendar-day overflow occurs), the first
`Extend` succeeds, and then: if the two readings coincide exactly, a second
`Extend` succeeds and the third fails, while if the second reading is
strictly later (the generic execution), already the second `Extend` fails
with the extend-limit error. -/
theorem claim_C7_amended :
    (∀ r : Rental, r.status = RentalStatusReturned →
        Extend r = .error "the rental is already returned")
    ∧ (∀ r : Rental, r.status ≠ RentalStatusReturned →
        ((r.dueAt.addMonths 1).after (r.rentedAt.addMonths maxNumberOfExtendedMonths) = true →
            Extend r = .error "extend max months reached")
        ∧ ((r.dueAt.addMonths 1).after (r.rentedAt.addMonths maxNumberOfExtendedMonths) = false →
            Extend r = .ok { r with status := RentalStatusActive, dueAt := r.dueAt.addMonths 1 }))
    ∧ (∀ (c : Customer) (a : Asset) (newId : Nat) (t1 : GoTime) (ns2 : Nat) (r0 : Rental),
        t1.Valid → t1.day ≤ 28 → t1.nsec ≤ ns2 →
        Rent c a none [] newId t1 { t1 with nsec := ns2 } = .ok r0 →
        ∃ r1, Extend r0 = .ok r1
          ∧ (t1.nsec = ns2 →
              ∃ r2, Extend r1 = .ok r2 ∧ Extend r2 = .error "extend max months reached")
          ∧ (t1.nsec < ns2 →
              Extend r1 = .error "extend max months reached")) := by
  refine ⟨?_, ?_, ?_⟩
  · intro r h
    unfold Extend
    rw [if_pos h]
  · intro r h
    constructor
    · intro hc
      unfold Extend
      rw [if_neg h, if_pos hc]
    · intro hc
      unfold Extend
      rw [if_neg h, if_neg (by simp [hc])]
  · intro c a newId t1 ns2 r0 hval hday hns hrent
    obtain ⟨hm1, hm2, hd1, hd2⟩ := hval
    have hr0 : r0 = { id := newId, customerId := c.id, assetId := a.id, rentedAt := t1,
                      dueAt := GoTime.addMonths { t1 with nsec := ns2 } 1, returnedAt := none,
                      status := RentalStatusActive } := by
      unfold Rent at hrent
      rw [if_neg (by simp), if_neg (by simp [maxNumberOfRentals]), if_neg (by simp)] at hrent
      split_ifs at hrent with hs
      all_goals simpa using hrent.symm
    subst hr0
    have e1 : GoTime.addMonths { t1 with nsec := ns2 } 1
        = monthsTime t1.day ns2 (12 * t1.year + (t1.month - 1) + 1) :=
      addMonths_eq_monthsTime { t1 with nsec := ns2 } 1 hm1 hm2 hday
    have e3 : t1.addMonths 3 = monthsTime t1.day t1.nsec (12 * t1.year + (t1.month - 1) + 3) :=
      addMonths_eq_monthsTime t1 3 hm1 hm2 hday
    have hup1 : (GoTime.addMonths { t1 with nsec := ns2 } 1).addMonths 1
        = monthsTime t1.day ns2 (12 * t1.year + (t1.month - 1) + 2) := by
      rw [e1, monthsTime_addMonths _ _ _ _ hday]
    have hup2 : (monthsTime t1.day ns2 (12 * t1.year + (t1.month - 1) + 2)).addMonths 1
        = monthsTime t1.day ns2 (12 * t1.year + (t1.month - 1) + 3) :=
      monthsTime_addMonths _ _ _ _ hday
    have hup3 : (monthsTime t1.day ns2 (12 * t1.year + (t1.month - 1) + 3)).addMonths 1
        = monthsTime t1.day ns2 (12 * t1.year + (t1.month - 1) + 4) :=
      monthsTime_addMonths _ _ _ _ hday
    have hc1 : (((GoTime.addMonths { t1 with nsec := ns2 } 1).addMonths 1).after
        (t1.addMonths maxNumberOfExtendedMonths)) = false := by
      simp only [maxNumberOfExtendedMonths]
      rw [hup1, e3]
      exact after_monthsTime_lt _ _ _ (by omega)
    refine ⟨{ id := newId, customerId := c.id, assetId := a.id, rentedAt := t1,
              dueAt := monthsTime t1.day ns2 (12 * t1.year + (t1.month - 1) + 2),
              returnedAt := none, status := RentalStatusActive }, ?_, ?_, ?_⟩
    · unfold Extend
      dsimp only
      rw [if_neg (by decide), if_neg (by simp [hc1]), hup1]
    · intro heq
      have hc2 : (((monthsTime t1.day ns2 (12 * t1.year + (t1.month - 1) + 2)).addMonths 1).after
          (t1.addMonths maxNumberOfExtendedMonths)) = false := by
        simp only [maxNumberOfExtendedMonths]
        rw [hup2, e3, after_monthsTime_same, heq]
        simp
      have hc3 : (((monthsTime t1.day ns2 (12 * t1.year + (t1.month - 1) + 3)).addMonths 1).after
          (t1.addMonths maxNumberOfExtendedMonths)) = true := by
        simp only [maxNumberOfExtendedMonths]
        rw [hup3, e3]
        exact after_monthsTime_gt _ _ _ (by omega)
      refine ⟨{ id := newId, customerId := c.id, assetId := a.id, rentedAt := t1,
                dueAt := monthsTime t1.day ns2 (12 * t1.year + (t1.month - 1) + 3),
                returnedAt := none, status := RentalStatusActive }, ?_, ?_⟩
      · unfold Extend
        dsimp only
        rw [if_neg (by decide), if_neg (by simp [hc2]), hup2]
      · unfold Extend
        dsimp only
        rw [if_neg (by decide), if_pos hc3]
    · intro hlt
      have hc2 : (((monthsTime t1.day ns2 (12 * t1.year + (t1.month - 1) + 2)).addMonths 1).after
          (t1.addMonths maxNumberOfExtendedMonths)) = true := by
        simp only [maxNumberOfExtendedMonths]
        rw [hup2, e3, after_monthsTime_same]
        simpa using hlt
      unfold Extend
      dsimp only
      rw [if_neg (by decide), if_pos hc2]

/-- Claim C7, witness of the amended claim: the fresh-rental scenario of
the amended claim exercised twice on a rental rented on January 15, 2025,
once with both clock readings equal (two Extends succeed, the third fails)
and once with the second reading seven nanoseconds later (the second
Extend already fails). -/
theorem claim_C7_witness :
    GoTime.Valid { year := 2025, month := 1, day := 15, nsec := 0 }
    ∧ ({ year := 2025, month := 1, day := 15, nsec := 0 } : GoTime).day ≤ 28
    ∧ ({ year := 2025, month := 1, day := 15, nsec := 0 } : GoTime).nsec ≤ 0
    ∧ ({ year := 2025, month := 1, day := 15, nsec := 0 } : GoTime).nsec ≤ 7
    ∧ Rent testCust testAsset none [] 9 { year := 2025, month := 1, day := 15, nsec := 0 }
        { year := 2025, month := 1, day := 15, nsec := 0 } = .ok testRental15
    ∧ Rent testCust testAsset none [] 9 { year := 2025, month := 1, day := 15, nsec := 0 }
        { year := 2025, month := 1, day := 15, nsec := 7 }
      = .ok { id := 9, customerId := 1, assetId := 3,
              rentedAt := { year := 2025, month := 1, day := 15, nsec := 0 },
              dueAt := { year := 2025, month := 2, day := 15, nsec := 7 },
              returnedAt := none, status := RentalStatusActive }
    ∧ (∃ r1, Extend testRental15 = .ok r1
        ∧ (({ year := 2025, month := 1, day := 15, nsec := 0 } : GoTime).nsec = 0 →
            ∃ r2, Extend r1 = .ok r2 ∧ Extend r2 = .error "extend max months reached")
        ∧ (({ year := 2025, month := 1, day := 15, nsec := 0 } : GoTime).nsec < 0 →
            Extend r1 = .error "extend max months reached"))
    ∧ (∃ r1, Extend { id := 9, customerId := 1, assetId := 3,
                      rentedAt := { year := 2025, month := 1, day := 15, nsec := 0 },
                      dueAt := { year := 2025, month := 2, day := 15, nsec := 7 },
                      returnedAt := none, status := RentalStatusActive } = .ok r1
        ∧ (({ year := 2025, month := 1, day := 15, nsec := 0 } : GoTime).nsec = 7 →
            ∃ r2, Extend r1 = .ok r2 ∧ Extend r2 = .error "extend max months reached")
        ∧ (({ year := 2025, month := 1, day := 15, nsec := 0 } : GoTime).nsec < 7 →
            Extend r1 = .error "extend max months reached")) :=
  ⟨by decide, by decide, by decide, by decide, by rfl, by rfl,
   claim_C7_amended.2.2 testCust testAsset 9 { year := 2025, month := 1, day := 15, nsec := 0 }
     0 testRental15 (by decide) (by decide) (by decide) (by rfl),
   claim_C7_amended.2.2 testCust testAsset 9 { year := 2025, month := 1, day := 15, nsec := 0 }
     7 { id := 9, customerId := 1, assetId := 3,
         rentedAt := { year := 2025, month := 1, day := 15, nsec := 0 },
         dueAt := { year := 2025, month := 2, day := 15, nsec := 7 },
         returnedAt := none, status := RentalStatusActive }
     (by decide) (by decide) (by decide) (by rfl)⟩

end Librarium

namespace Librarium.web

/-! ## Claim C8: the JSON content-type middleware -/

theorem foldl_applyAction_status_some (acts : List RespAction) (st : RespState) (s : Nat)
    (h : st.status = some s) : (acts.foldl applyAction st).status = some s := by
  induction acts generalizing st with
  | nil => exact h
  | cons a rest ih =>
      apply ih
      cases a with
      | setHeader k v => simpa [applyAction] using h
      | writeHeader code => simp [applyAction, h]
      | write b => simp [applyAction, h]

theorem foldl_applyAction_body_head (acts : List RespAction) (st : RespState) (b : RespBody)
    (h : st.body.head? = some b) : (acts.foldl applyAction st).body.head? = some b := by
  induction acts generalizing st with
  | nil => exact h
  | cons a rest ih =>
      apply ih
      cases a with
      | setHeader k v => simpa [applyAction] using h
      | writeHeader code =>
          rcases hs : st.status with _ | s <;> simp [applyAction, hs] <;> exact h
      | write bb =>
          rcases hs : st.status with _ | s <;>
            simp [applyAction, hs, List.head?_append, h]

/-- Claim C8, counterexample: on a POST request without the JSON
content-type, the middleware writes the 400 error response but still
invokes the wrapped handler (the probe's write appears in the output
trace), refuting "the wrapped handler is not invoked". -/
theorem claim_C8_counterexample :
    JsonContentTypeMiddleware handlerProbe
        { method := "POST", path := "/catalog/assets", contentType := "" }
      = WriteResponseError 400 "Content-Type must be application/json"
          ++ [RespAction.write (.raw "from-handler")]
    ∧ JsonContentTypeMiddleware handlerProbe
        { method := "POST", path := "/catalog/assets", contentType := "" }
      ≠ WriteResponseError 400 "Content-Type must be application/json" := by
  constructor
  · rfl
  · decide

/-- Claim C8, amended: for every POST or PUT request without the JSON
content type the middleware writes the 400 response with the error
envelope and then still invokes the wrapped handler (missing `return`); the
committed status stays 400 and the first body chunk is the error envelope
whatever the handler writes afterwards; GET and DELETE requests pass
through untouched regardless of Content-Type. -/
theorem claim_C8_amended :
    (∀ (next : Handler) (r : Request),
      (r.method = "POST" ∨ r.method = "PUT") → r.contentType ≠ "application/json" →
        JsonContentTypeMiddleware next r
          = WriteResponseError 400 "Content-Type must be application/json" ++ next r
        ∧ (runActions (JsonContentTypeMiddleware next r)).status = some 400
        ∧ (runActions (JsonContentTypeMiddleware next r)).body.head?
            = some (.errorMsg "Content-Type must be application/json"))
    ∧ (∀ (next : Handler) (r : Request),
      r.method = "GET" ∨ r.method = "DELETE" →
        JsonContentTypeMiddleware next r = next r) := by
  constructor
  · intro next r hm hct
    have he : JsonContentTypeMiddleware next r
        = WriteResponseError 400 "Content-Type must be application/json" ++ next r := by
      unfold JsonContentTypeMiddleware
      rw [if_pos ⟨hm, hct⟩]
    refine ⟨he, ?_, ?_⟩
    · rw [he]
      unfold runActions
      rw [List.foldl_append]
      exact foldl_applyAction_status_some _ _ 400 (by rfl)
    · rw [he]
      unfold runActions
      rw [List.foldl_append]
      exact foldl_applyAction_body_head _ _ _ (by rfl)
  · intro next r h
    rcases h with h | h <;>
      (unfold JsonContentTypeMiddleware; rw [if_neg (by simp [h])])

/-- Claim C8, witness of the amended claim: a concrete bad POST keeps
status 400 with the error envelope first in the body, and a concrete GET
passes through. -/
theorem claim_C8_witness :
    ((runActions (JsonContentTypeMiddleware handlerProbe
        { method := "POST", path := "/catalog/assets", contentType := "" })).status = some 400
      ∧ (runActions (JsonContentTypeMiddleware handlerProbe
        { method := "POST", path := "/catalog/assets", contentType := "" })).body.head?
          = some (.errorMsg "Content-Type must be application/json"))
    ∧ JsonContentTypeMiddleware handlerProbe
        { method := "GET", path := "/catalog/assets", contentType := "" }
      = handlerProbe { method := "GET", path := "/catalog/assets", contentType := "" } :=
  ⟨⟨(claim_C8_amended.1 handlerProbe
      { method := "POST", path := "/catalog/assets", contentType := "" }
      (Or.inl rfl) (by decide)).2.1,
    (claim_C8_amended.1 handlerProbe
      { method := "POST", path := "/catalog/assets", contentType := "" }
      (Or.inl rfl) (by decide)).2.2⟩,
   claim_C8_amended.2 handlerProbe
     { method := "GET", path := "/catalog/assets", contentType := "" } (Or.inl rfl)⟩

end Librarium.web

namespace Librarium

open Librarium.catalog Librarium.json Librarium.web

/-! ## Claim C1: create-asset decoding versus BuildAsset -/

/-- Claim C1 (code bug): the two-stage decoder accepts the scenario-4 BOOK
body and stores the decoded payload as a bare struct value, but `BuildAsset`
only accepts pointer values, so `CatalogController.Create` answers 400 with
"asset category not allowed" instead of 200 even over a repository that
always succeeds. -/
theorem claim_C1 :
    ((unmarshalCreateAssetRequest bookBodyJson).map (fun req => req.asset))
      = .ok (.book false book1984)
    ∧ BuildAsset 5 { year := 2025, month := 5, day := 10, nsec := 0 } (.book false book1984)
      = .error "asset category not allowed"
    ∧ CreateAssetHandler 5 { year := 2025, month := 5, day := 10, nsec := 0 } bookBodyJson (.ok ())
      = (400, .errorMsg "asset category not allowed") :=
  ⟨rfl, rfl, rfl⟩

end Librarium

namespace Librarium

open Librarium.user Librarium.auth Librarium.web

/-! ## Claims C2 and C3: login and token validation -/

/-- Helper: the registered-claims type assertion never holds on the
`MapClaims` value decoded by `jwt.Parse`, so `DecodeAndValidate` returns an
error for every token, key and instant. -/
theorem decodeAndValidate_error (tok : SignedJwt) (key : String) (now : Int) :
    ∃ e, DecodeAndValidate tok key now = .error e := by
  unfold DecodeAndValidate jwtParse
  split_ifs <;> exact ⟨_, rfl⟩

/-- Claim C2 (code bug): with a non-empty signing key and matching
credentials, `Login` mints a session whose token is then rejected by
`DecodeAndValidate` with "error while parsing jwt registered claims",
because `jwt.Parse` produces `MapClaims` while the code type-asserts
`RegisteredClaims`; the round trip never yields the librarian ID.  Tokens
whose expiry is in the past are rejected as the claim states. -/
theorem claim_C2 (signingKey : String) (librarian : Librarian) (req : LoginRequest) (now : Int)
    (hkey : signingKey ≠ "") (hemail : req.email = librarian.email)
    (hpwd : librarian.password = "bcrypt$" ++ req.password) :
    (∃ s, Login req librarian signingKey now = .ok s
       ∧ DecodeAndValidate s.token signingKey now
           = .error "error while parsing jwt registered claims")
    ∧ (∀ tok : SignedJwt, tok.claims.expiresAt < now →
        ∃ e, DecodeAndValidate tok signingKey now = .error e) := by
  constructor
  · have hchk : (CheckPassword librarian.password req.password).isOk = true := by
      unfold CheckPassword
      rw [if_pos hpwd]
      rfl
    have hcond : ¬ (req.email ≠ librarian.email
        ∨ ¬ (CheckPassword librarian.password req.password).isOk = true) := by
      rintro (h1 | h2)
      · exact h1 hemail
      · exact h2 hchk
    refine ⟨{ librarianId := librarian.id,
              token := jwtSignedString "HS256"
                { subject := uuidToString librarian.id, issuer := "librarium",
                  issuedAt := now, expiresAt := now + expiryDuration } signingKey,
              expiresAt := now + expiryDuration }, ?_, ?_⟩
    · unfold Login
      rw [if_neg hcond]
    · unfold DecodeAndValidate jwtParse
      rw [if_neg (by simp only [jwtSignedString]; simp [List.contains]),
        if_neg (by simp only [jwtSignedString]; simp),
        if_neg (by simp only [jwtSignedString, expiryDuration]; omega)]
  · intro tok hexp
    exact decodeAndValidate_error tok signingKey now

/-- Claim C2, witness at concrete credentials and signing key. -/
theorem claim_C2_witness :
    ("test_key" : String) ≠ ""
    ∧ ((∃ s, Login { email := "john.doe@test.com", password := "strong-pass" }
            { id := 1, name := "John Doe", email := "john.doe@test.com",
              password := "bcrypt$strong-pass" } "test_key" 0 = .ok s
          ∧ DecodeAndValidate s.token "test_key" 0
              = .error "error while parsing jwt registered claims")
        ∧ (∀ tok : SignedJwt, tok.claims.expiresAt < 0 →
            ∃ e, DecodeAndValidate tok "test_key" 0 = .error e)) :=
  ⟨by decide,
   claim_C2 "test_key"
     { id := 1, name := "John Doe", email := "john.doe@test.com",
       password := "bcrypt$strong-pass" }
     { email := "john.doe@test.com", password := "strong-pass" } 0
     (by decide) rfl rfl⟩

/-- Claim C3 (code bug): a login request whose email matches a stored
librarian but whose password does not verify makes `AuthController.Login`
answer with status 500 (InternalServerError) carrying the
"login bad credentials" envelope, not the claimed 400: the handler maps
every `auth.Login` failure to 500. -/
theorem claim_C3 (librarian : Librarian) (req : LoginRequest)
    (signingKey : String) (now : Int)
    (hemail : req.email = librarian.email)
    (hpwd : (CheckPassword librarian.password req.password).isOk = false) :
    LoginHandler (some req) (.ok (some librarian)) signingKey now
      = (500, .errorMsg "login bad credentials") := by
  have hlogin : Login req librarian signingKey now = .error "login bad credentials" := by
    unfold Login
    rw [if_pos (Or.inr (by simp [hpwd]))]
  simp only [LoginHandler]
  rw [hlogin]

/-- Claim C3, witness at a concrete librarian and wrong password. -/
theorem claim_C3_witness :
    (CheckPassword "bcrypt$strong-pass" "WRONG").isOk = false
    ∧ LoginHandler
        (some { email := "john.doe@test.com", password := "WRONG" })
        (.ok (some { id := 1, name := "John Doe", email := "john.doe@test.com",
                     password := "bcrypt$strong-pass" }))
        "test_key" 0
      = (500, .errorMsg "login bad credentials") :=
  ⟨by decide,
   claim_C3
     { id := 1, name := "John Doe", email := "john.doe@test.com",
       password := "bcrypt$strong-pass" }
     { email := "john.doe@test.com", password := "WRONG" }
     "test_key" 0 rfl (by decide)⟩

end Librarium

namespace Librarium.query

/-! ## Claim C9: the query-string filter translation -/

theorem getFilter_nil (k : String) : getFilter [] k = none := rfl

theorem getFilter_setFilter_self (fs : Filters) (k : String) (f : Filter) :
    getFilter (setFilter fs k f) k = some f := by
  induction fs with
  | nil => simp [setFilter, getFilter]
  | cons p rest ih =>
      rcases p with ⟨k0, f0⟩
      by_cases h : k0 = k
      · simp [setFilter, h, getFilter]
      · simp [setFilter, h, getFilter, ih]

theorem getFilter_setFilter_ne (fs : Filters) (k q : String) (f : Filter) (h : k ≠ q) :
    getFilter (setFilter fs k f) q = getFilter fs q := by
  induction fs with
  | nil => simp [setFilter, getFilter, h]
  | cons p rest ih =>
      rcases p with ⟨k0, f0⟩
      by_cases h0 : k0 = k
      · subst h0
        simp [setFilter, getFilter, h]
      · by_cases hq : k0 = q
        · subst hq
          simp [setFilter, getFilter, h0, Ne.symm h]
        · simp [setFilter, h0, getFilter, hq, ih]

theorem filterFromParamName_of_none (n : String) (v : List String) (fs : Filters)
    (h : getFilter fs (cleanUpField n) = none) :
    filterFromParamName n v fs = specFilterOfParam n v := by
  unfold specFilterOfParam filterFromParamName
  rw [h, getFilter_nil]

theorem filtersFold_untouched (params : List (String × List String)) (fs : Filters) (k : String)
    (h : ∀ p ∈ params, isParameterAllowed p.1 = true → cleanUpField p.1 ≠ k) :
    getFilter (filtersFold fs params) k = getFilter fs k := by
  induction params generalizing fs with
  | nil => rfl
  | cons p rest ih =>
      rcases p with ⟨n0, v0⟩
      simp only [filtersFold]
      by_cases ha : isParameterAllowed n0 = true
      · rw [if_pos ha,
          ih _ (fun q hq haq => h q (List.mem_cons_of_mem _ hq) haq),
          getFilter_setFilter_ne _ _ _ _ (h ⟨n0, v0⟩ (List.mem_cons_self _ _) ha)]
      · rw [if_neg ha]
        exact ih _ (fun q hq haq => h q (List.mem_cons_of_mem _ hq) haq)

/-- Claim C9, counterexample: the parameter name `a[]b` contains `[]` in
the middle, so the code classifies it as an IN filter (`strings.Contains`),
while the claim's suffix rule predicts an EQUAL filter; the stored key is
the unstripped name in both readings. -/
theorem claim_C9_counterexample :
    FiltersFromHTTPRequest [("a[]b", ["v"])]
      = [("a[]b", { type := .filterIn, value := .listVal ["v"] })]
    ∧ claimFieldOfParam "a[]b" = "a[]b"
    ∧ claimFilterOfParam "a[]b" ["v"] = { type := .equal, value := .strVal "v" }
    ∧ getFilter (FiltersFromHTTPRequest [("a[]b", ["v"])]) (claimFieldOfParam "a[]b")
        ≠ some (claimFilterOfParam "a[]b" ["v"]) := by
  refine ⟨by rfl, by rfl, by rfl, by decide⟩

end Librarium.query

namespace Librarium.query

theorem pair_mem_tail {n n0 : String} {v v0 : List String}
    {rest : List (String × List String)}
    (hmem : (n, v) ∈ (n0, v0) :: rest) (hne : n0 ≠ n) : (n, v) ∈ rest := by
  rcases List.mem_cons.mp hmem with heq | hm
  · injection heq with h1 _
    exact absurd h1.symm hne
  · exact hm

theorem pair_mem_head_val {n0 : String} {v v0 : List String}
    {rest : List (String × List String)}
    (hmem : (n0, v) ∈ (n0, v0) :: rest) (hnotin : n0 ∉ rest.map Prod.fst) : v0 = v := by
  rcases List.mem_cons.mp hmem with heq | hm
  · injection heq with _ h2
    exact h2.symm
  · exact absurd (List.mem_map_of_mem Prod.fst hm) hnotin

theorem filtersFold_single (n : String) (v : List String)
    (hallow : isParameterAllowed n = true) :
    ∀ (params : List (String × List String)) (fs : Filters),
      (params.map Prod.fst).Nodup →
      (n, v) ∈ params →
      (∀ p ∈ params, isParameterAllowed p.1 = true → p.1 ≠ n →
        cleanUpField p.1 ≠ cleanUpField n) →
      getFilter fs (cleanUpField n) = none →
      getFilter (filtersFold fs params) (cleanUpField n) = some (specFilterOfParam n v) := by
  intro params
  induction params with
  | nil =>
      intro fs _ hmem _ _
      simp at hmem
  | cons p rest ih =>
      intro fs hnodup hmem hcoll hfs
      rcases p with ⟨n0, v0⟩
      simp only [List.map_cons, List.nodup_cons] at hnodup
      obtain ⟨hn0, hrestnodup⟩ := hnodup
      simp only [filtersFold]
      by_cases e1 : n0 = n
      · subst e1
        have hv0 : v0 = v := pair_mem_head_val hmem hn0
        subst hv0
        rw [if_pos hallow, filterFromParamName_of_none n0 v0 fs hfs]
        rw [filtersFold_untouched rest _ _ ?side, getFilter_setFilter_self]
        case side =>
          intro q hq haq
          apply hcoll q (List.mem_cons_of_mem _ hq) haq
          intro hcontra
          exact hn0 (hcontra ▸ List.mem_map_of_mem Prod.fst hq)
      · have hmem' : (n, v) ∈ rest := pair_mem_tail hmem e1
        have hcoll' : ∀ q ∈ rest, isParameterAllowed q.1 = true → q.1 ≠ n →
            cleanUpField q.1 ≠ cleanUpField n :=
          fun q hq => hcoll q (List.mem_cons_of_mem _ hq)
        by_cases ha : isParameterAllowed n0 = true
        · rw [if_pos ha]
          apply ih _ hrestnodup hmem' hcoll'
          rw [getFilter_setFilter_ne _ _ _ _ (hcoll ⟨n0, v0⟩ (List.mem_cons_self _ _) ha e1)]
          exact hfs
        · rw [if_neg ha]
          exact ih _ hrestnodup hmem' hcoll' hfs

end Librarium.query

namespace Librarium.query

theorem filtersFold_merge (fld n1 n2 : String) (fv tv : List String)
    (hc1 : goContains n1 "[]" = false) (hf1 : goHasSuffix n1 "_from" = true)
    (hcl1 : cleanUpField n1 = fld)
    (hc2 : goContains n2 "[]" = false) (hf2 : goHasSuffix n2 "_from" = false)
    (ht2 : goHasSuffix n2 "_to" = true) (hcl2 : cleanUpField n2 = fld)
    (ha1 : isParameterAllowed n1 = true) (ha2 : isParameterAllowed n2 = true) :
    ∀ (params : List (String × List String)) (fs : Filters),
      (params.map Prod.fst).Nodup →
      (∀ p ∈ params, p.1 ≠ n1 → p.1 ≠ n2 → isParameterAllowed p.1 = true →
        cleanUpField p.1 ≠ fld) →
      (((n1, fv) ∈ params ∧ (n2, tv) ∈ params ∧ getFilter fs fld = none)
        ∨ ((n1, fv) ∈ params ∧ n2 ∉ params.map Prod.fst
            ∧ getFilter fs fld
              = some { type := .range, value := .rangeVal { fromVal := "", toVal := tv.headD "" } })
        ∨ ((n2, tv) ∈ params ∧ n1 ∉ params.map Prod.fst
            ∧ getFilter fs fld
              = some { type := .range, value := .rangeVal { fromVal := fv.headD "", toVal := "" } })) →
      getFilter (filtersFold fs params) fld
        = some { type := .range, value := .rangeVal { fromVal := fv.headD "", toVal := tv.headD "" } } := by
  have hne12 : n1 ≠ n2 := by
    intro hc
    subst hc
    simp [hf1] at hf2
  intro params
  induction params with
  | nil =>
      intro fs _ _ hstate
      rcases hstate with ⟨h, _⟩ | ⟨h, _⟩ | ⟨h, _⟩ <;> simp at h
  | cons p rest ih =>
      intro fs hnodup hcoll hstate
      rcases p with ⟨n0, v0⟩
      simp only [List.map_cons, List.nodup_cons] at hnodup
      obtain ⟨hn0, hrest⟩ := hnodup
      have hcoll' : ∀ q ∈ rest, q.1 ≠ n1 → q.1 ≠ n2 → isParameterAllowed q.1 = true →
          cleanUpField q.1 ≠ fld :=
        fun q hq => hcoll q (List.mem_cons_of_mem _ hq)
      simp only [filtersFold]
      rcases hstate with ⟨hm1, hm2, hnone⟩ | ⟨hm1, hnotin2, hsome⟩ | ⟨hm2, hnotin1, hsome⟩
      · by_cases e1 : n0 = n1
        · subst e1
          have hv0 : v0 = fv := pair_mem_head_val hm1 hn0
          subst hv0
          have hm2' : (n2, tv) ∈ rest := pair_mem_tail hm2 hne12
          rw [if_pos ha1]
          have hf : filterFromParamName n0 v0 fs
              = { type := .range, value := .rangeVal { fromVal := v0.headD "", toVal := "" } } := by
            unfold filterFromParamName
            rw [if_neg (by simp [hc1]), if_pos hf1, hcl1, hnone]
          rw [hf, hcl1]
          apply ih _ hrest hcoll'
          exact Or.inr (Or.inr ⟨hm2', hn0, by rw [getFilter_setFilter_self]⟩)
        · by_cases e2 : n0 = n2
          · subst e2
            have hv0 : v0 = tv := pair_mem_head_val hm2 hn0
            subst hv0
            have hm1' : (n1, fv) ∈ rest := pair_mem_tail hm1 e1
            rw [if_pos ha2]
            have hf : filterFromParamName n0 v0 fs
                = { type := .range, value := .rangeVal { fromVal := "", toVal := v0.headD "" } } := by
              unfold filterFromParamName
              rw [if_neg (by simp [hc2]), if_neg (by simp [hf2]), if_pos ht2, hcl2, hnone]
            rw [hf, hcl2]
            apply ih _ hrest hcoll'
            exact Or.inr (Or.inl ⟨hm1', hn0, by rw [getFilter_setFilter_self]⟩)
          · have hm1' : (n1, fv) ∈ rest := pair_mem_tail hm1 e1
            have hm2' : (n2, tv) ∈ rest := pair_mem_tail hm2 e2
            by_cases ha : isParameterAllowed n0 = true
            · rw [if_pos ha]
              apply ih _ hrest hcoll'
              refine Or.inl ⟨hm1', hm2', ?_⟩
              rw [getFilter_setFilter_ne _ _ _ _
                (hcoll ⟨n0, v0⟩ (List.mem_cons_self _ _) e1 e2 ha)]
              exact hnone
            · rw [if_neg ha]
              exact ih _ hrest hcoll' (Or.inl ⟨hm1', hm2', hnone⟩)
      · by_cases e1 : n0 = n1
        · subst e1
          have hv0 : v0 = fv := pair_mem_head_val hm1 hn0
          subst hv0
          rw [if_pos ha1]
          have hf : filterFromParamName n0 v0 fs
              = { type := .range, value := .rangeVal { fromVal := v0.headD "", toVal := tv.headD "" } } := by
            unfold filterFromParamName
            rw [if_neg (by simp [hc1]), if_pos hf1, hcl1, hsome]
            rfl
          rw [hf, hcl1]
          rw [filtersFold_untouched rest _ _ ?side1, getFilter_setFilter_self]
          case side1 =>
            intro q hq haq
            apply hcoll q (List.mem_cons_of_mem _ hq) ?_ ?_ haq
            · intro hcontra
              exact hn0 (hcontra ▸ List.mem_map_of_mem Prod.fst hq)
            · intro hcontra
              exact hnotin2 (List.mem_cons_of_mem _ (hcontra ▸ List.mem_map_of_mem Prod.fst hq))
        · have e2 : n0 ≠ n2 := by
            intro hc
            exact hnotin2 (by simp [List.map_cons, ← hc])
          have hm1' : (n1, fv) ∈ rest := pair_mem_tail hm1 e1
          have hnotin2' : n2 ∉ rest.map Prod.fst :=
            fun hc => hnotin2 (List.mem_cons_of_mem _ hc)
          by_cases ha : isParameterAllowed n0 = true
          · rw [if_pos ha]
            apply ih _ hrest hcoll'
            refine Or.inr (Or.inl ⟨hm1', hnotin2', ?_⟩)
            rw [getFilter_setFilter_ne _ _ _ _
              (hcoll ⟨n0, v0⟩ (List.mem_cons_self _ _) e1 e2 ha)]
            exact hsome
          · rw [if_neg ha]
            exact ih _ hrest hcoll' (Or.inr (Or.inl ⟨hm1', hnotin2', hsome⟩))
      · by_cases e2 : n0 = n2
        · subst e2
          have hv0 : v0 = tv := pair_mem_head_val hm2 hn0
          subst hv0
          rw [if_pos ha2]
          have hf : filterFromParamName n0 v0 fs
              = { type := .range, value := .rangeVal { fromVal := fv.headD "", toVal := v0.headD "" } } := by
            unfold filterFromParamName
            rw [if_neg (by simp [hc2]), if_neg (by simp [hf2]), if_pos ht2, hcl2, hsome]
            rfl
          rw [hf, hcl2]
          rw [filtersFold_untouched rest _ _ ?side2, getFilter_setFilter_self]
          case side2 =>
            intro q hq haq
            apply hcoll q (List.mem_cons_of_mem _ hq) ?_ ?_ haq
            · intro hcontra
              exact hnotin1 (List.mem_cons_of_mem _ (hcontra ▸ List.mem_map_of_mem Prod.fst hq))
            · intro hcontra
              exact hn0 (hcontra ▸ List.mem_map_of_mem Prod.fst hq)
        · have e1 : n0 ≠ n1 := by
            intro hc
            exact hnotin1 (by simp [List.map_cons, ← hc])
          have hm2' : (n2, tv) ∈ rest := pair_mem_tail hm2 e2
          have hnotin1' : n1 ∉ rest.map Prod.fst :=
            fun hc => hnotin1 (List.mem_cons_of_mem _ hc)
          by_cases ha : isParameterAllowed n0 = true
          · rw [if_pos ha]
            apply ih _ hrest hcoll'
            refine Or.inr (Or.inr ⟨hm2', hnotin1', ?_⟩)
            rw [getFilter_setFilter_ne _ _ _ _
              (hcoll ⟨n0, v0⟩ (List.mem_cons_self _ _) e1 e2 ha)]
            exact hsome
          · rw [if_neg ha]
            exact ih _ hrest hcoll' (Or.inr (Or.inr ⟨hm2', hnotin1', hsome⟩))

end Librarium.query

namespace Librarium.query

/-- Claim C9, amended: every non-reserved query parameter becomes exactly
one filter keyed by `cleanUpField` of its name (each of the suffixes `[]`,
`_from`, `_to`, `_like`, `_not` trimmed once, in that order), with the
operator IN whenever the name contains `[]` anywhere (`strings.Contains`,
not a suffix test), RANGE for `_from`/`_to`, NOT_EQUAL for `_not`, LIKE for
`_like` and EQUAL otherwise — provided no other parameter collides on the
same key; and whenever both `foo_from` and `foo_to` appear, in whichever
iteration order, the result holds a single RANGE filter for `foo` carrying
both bounds. -/
theorem claim_C9_amended :
    (∀ (params : List (String × List String)) (n : String) (v : List String),
      (params.map Prod.fst).Nodup →
      (n, v) ∈ params →
      isParameterAllowed n = true →
      (∀ p ∈ params, isParameterAllowed p.1 = true → p.1 ≠ n →
        cleanUpField p.1 ≠ cleanUpField n) →
      getFilter (FiltersFromHTTPRequest params) (cleanUpField n)
        = some (specFilterOfParam n v))
    ∧ (∀ (params : List (String × List String)) (fld n1 n2 : String) (fv tv : List String),
      (params.map Prod.fst).Nodup →
      (n1, fv) ∈ params → (n2, tv) ∈ params →
      goContains n1 "[]" = false → goHasSuffix n1 "_from" = true → cleanUpField n1 = fld →
      goContains n2 "[]" = false → goHasSuffix n2 "_from" = false →
      goHasSuffix n2 "_to" = true → cleanUpField n2 = fld →
      isParameterAllowed n1 = true → isParameterAllowed n2 = true →
      (∀ p ∈ params, p.1 ≠ n1 → p.1 ≠ n2 → isParameterAllowed p.1 = true →
        cleanUpField p.1 ≠ fld) →
      getFilter (FiltersFromHTTPRequest params) fld
        = some { type := .range, value := .rangeVal { fromVal := fv.headD "", toVal := tv.headD "" } }) := by
  constructor
  · intro params n v hnodup hmem hallow hcoll
    exact filtersFold_single n v hallow params [] hnodup hmem hcoll rfl
  · intro params fld n1 n2 fv tv hnodup hm1 hm2 hc1 hf1 hcl1 hc2 hf2 ht2 hcl2 ha1 ha2 hcoll
    exact filtersFold_merge fld n1 n2 fv tv hc1 hf1 hcl1 hc2 hf2 ht2 hcl2 ha1 ha2 params []
      hnodup hcoll (Or.inl ⟨hm1, hm2, rfl⟩)

/-- Claim C9, witness of the amended claim: a single `title_like` parameter
becomes a LIKE filter under key `title`, and a `published_from` and
`published_to` pair merges into one RANGE filter under key `published` in
both iteration orders. -/
theorem claim_C9_witness :
    getFilter (FiltersFromHTTPRequest [("title_like", ["1984"])]) (cleanUpField "title_like")
      = some (specFilterOfParam "title_like" ["1984"])
    ∧ getFilter (FiltersFromHTTPRequest [("published_from", ["2020"]), ("published_to", ["2024"])])
        "published"
      = some { type := .range, value := .rangeVal { fromVal := "2020", toVal := "2024" } }
    ∧ getFilter (FiltersFromHTTPRequest [("published_to", ["2024"]), ("published_from", ["2020"])])
        "published"
      = some { type := .range, value := .rangeVal { fromVal := "2020", toVal := "2024" } } :=
  ⟨claim_C9_amended.1 [("title_like", ["1984"])] "title_like" ["1984"]
    (by decide) (by decide) (by decide) (by decide),
   claim_C9_amended.2 [("published_from", ["2020"]), ("published_to", ["2024"])]
    "published" "published_from" "published_to" ["2020"] ["2024"]
    (by decide) (by decide) (by decide) (by decide) (by decide) (by decide) (by decide)
    (by decide) (by decide) (by decide) (by decide) (by decide) (by decide),
   claim_C9_amended.2 [("published_to", ["2024"]), ("published_from", ["2020"])]
    "published" "published_from" "published_to" ["2020"] ["2024"]
    (by decide) (by decide) (by decide) (by decide) (by decide) (by decide) (by decide)
    (by decide) (by decide) (by decide) (by decide) (by decide) (by decide)⟩

end Librarium.query
